import Mathlib

/-!
Verification of the Pilates class-plan generator (src/class_builder.py).

The Python source is embedded shallowly:

* Machine integers are modeled as Nat.  Time budgets, which the source
  computes in binary floating point, are modeled exactly over scaled
  integers: the source value `typical_minutes * (duration/56) * 60 * mult`
  (with `mult` one of 0.8, 1.0, 1.15, 1.25) is stored multiplied by
  `20 * total_typical`, so all comparisons are exact rational comparisons.
  The claims settled here do not depend on floating-point rounding, and
  every concrete input used below has duration 56 minutes, for which the
  source's float arithmetic is exact (the time scale is exactly 1.0).
* Randomness is modeled by an oracle stream of naturals (`RandS`).  A
  `random.random()` draw yields `n % 1000`, read as the real n/1000, so the
  source's threshold tests `> 0.10`, `> 0.55`, `< 0.7` become `> 100`,
  `> 550`, `< 700`; every outcome class of the source is representable.
  `random.randint(a, b)` raises ValueError when `b < a`; raising is modeled
  by `Option`/`none` propagating to the caller.  `random.shuffle` is
  CPython's Fisher-Yates driven by the stream; `list.sort(key=...)` is a
  stable sort on the per-element keys (computed in list order, consuming
  one draw each), and any stable sort agrees with CPython's stable sort.
* Python dicts used as counters are insertion-ordered association lists;
  `max(d, key=d.get)` returns the first key of maximal count.  Python sets
  (the abandoned-equipment set) are duplicate-free lists used only for
  membership, insertion and discard.
-/

/-- Catalog entry, mirroring the `Exercise` dataclass.  The dataclass field
`section` is a Lean keyword and is named `sectionId` here; `level_num`-style
decimals are stored times ten. -/
structure Exercise where
  id : String
  name : String
  sectionId : String
  equipment : List String
  level : String
  spring_setting : String := ""
  reps : Nat := 8
  duration_seconds : Nat := 60
  variations : List String := []
  props : List String := []
  notes : String := ""
  uses_box : Bool := false
deriving DecidableEq

/-- A class section descriptor (the dicts FIXED_FIRST, FIXED_LAST and the
entries of FLEXIBLE_SECTIONS).  The fixed blocks also carry an `order` key
in the source; it is never read, so it is omitted here. -/
structure Sect where
  id : String
  name : String
  typical_minutes : Nat
deriving DecidableEq

/-- An experience level configuration (entries of EXPERIENCE_LEVELS).
`level_num` is stored times 10 and `rep_multiplier` times 100 (both are
never read by the generator); `exercise_count_multiplier` is stored times
20, exactly (0.8, 1.0, 1.15, 1.25 become 16, 20, 23, 25). -/
structure LevelConfig where
  id : String
  name : String
  level_num_x10 : Nat
  rep_multiplier_x100 : Nat
  exercise_count_multiplier_x20 : Nat
  max_transitions : Nat
deriving DecidableEq

def FIXED_FIRST : Sect := { id := "footwork", name := "Footwork", typical_minutes := 5 }

def FIXED_LAST : Sect := { id := "stretch", name := "Stretch", typical_minutes := 5 }

def FLEXIBLE_SECTIONS : List Sect := [
  { id := "bridges", name := "Bridges", typical_minutes := 5 },
  { id := "abdominals", name := "Abdominals", typical_minutes := 7 },
  { id := "plank", name := "Plank", typical_minutes := 5 },
  { id := "upper_body", name := "Upper Body", typical_minutes := 7 },
  { id := "lower_body", name := "Lower Body", typical_minutes := 7 },
  { id := "lateral_line", name := "Lateral Line", typical_minutes := 5 },
  { id := "prone_extension", name := "Prone/Extension", typical_minutes := 5 },
  { id := "full_body", name := "Full Body Integration", typical_minutes := 5 }]

def EXPERIENCE_LEVELS : List LevelConfig := [
  { id := "beginner", name := "Beginner (Level 1)", level_num_x10 := 10,
    rep_multiplier_x100 := 120, exercise_count_multiplier_x20 := 16, max_transitions := 6 },
  { id := "intermediate", name := "Intermediate (Level 1.5)", level_num_x10 := 15,
    rep_multiplier_x100 := 100, exercise_count_multiplier_x20 := 20, max_transitions := 6 },
  { id := "advanced", name := "Advanced (Level 2)", level_num_x10 := 20,
    rep_multiplier_x100 := 85, exercise_count_multiplier_x20 := 23, max_transitions := 6 },
  { id := "advanced_plus", name := "Advanced+ (Level 2.5)", level_num_x10 := 25,
    rep_multiplier_x100 := 75, exercise_count_multiplier_x20 := 25, max_transitions := 8 }]

/-- The seed exercise catalog (the EXERCISES list), transcribed verbatim. -/
def EXERCISES : List Exercise := [
  -- Footwork
  { id := "fw_heels_bilateral", name := "Heels - Bilateral", sectionId := "footwork",
    equipment := ["reformer", "chair"], level := "beginner",
    spring_setting := "3R or 2R+1B", reps := 10, duration_seconds := 45,
    variations := ["Parallel", "V Position", "Wide", "Narrow"] },
  { id := "fw_toes_bilateral", name := "Toes - Bilateral", sectionId := "footwork",
    equipment := ["reformer", "chair"], level := "beginner",
    spring_setting := "3R or 2R+1B", reps := 10, duration_seconds := 45,
    variations := ["Parallel", "V Position", "Wide", "Narrow"] },
  { id := "fw_arches", name := "Arches", sectionId := "footwork",
    equipment := ["reformer", "chair"], level := "beginner",
    spring_setting := "3R or 2R+1B", reps := 10, duration_seconds := 45 },
  { id := "fw_single_leg", name := "Single Leg Footwork", sectionId := "footwork",
    equipment := ["reformer", "chair"], level := "intermediate",
    spring_setting := "2R or 1R+1B", reps := 8, duration_seconds := 60,
    variations := ["Toe Tap", "Ball & Socket", "Leg & Leg", "Develope", "Circles"] },
  { id := "fw_standing", name := "Standing Footwork", sectionId := "footwork",
    equipment := ["springboard"], level := "beginner",
    spring_setting := "", reps := 10, duration_seconds := 60 },
  { id := "fw_side_lying", name := "Side Lying Footwork", sectionId := "footwork",
    equipment := ["reformer"], level := "intermediate",
    spring_setting := "1R+1B", reps := 8, duration_seconds := 60,
    variations := ["Parallel", "External Rotation", "Internal Rotation", "High Half Toe"] },
  -- Bridges
  { id := "br_articulating", name := "Articulating Bridge", sectionId := "bridges",
    equipment := ["mat"], level := "beginner",
    spring_setting := "", reps := 5, duration_seconds := 60 },
  { id := "br_pelvic_lift", name := "Pelvic Lift/Hinge Bridge", sectionId := "bridges",
    equipment := ["mat"], level := "beginner",
    spring_setting := "", reps := 5, duration_seconds := 45 },
  { id := "br_single_leg", name := "Single Leg Bridge", sectionId := "bridges",
    equipment := ["mat"], level := "advanced",
    spring_setting := "", reps := 5, duration_seconds := 60 },
  { id := "br_shoulder_bridge", name := "Shoulder Bridge", sectionId := "bridges",
    equipment := ["mat", "reformer"], level := "intermediate",
    spring_setting := "1R+1B", reps := 3, duration_seconds := 60 },
  { id := "br_reformer_bilateral", name := "Bridge - Bilateral", sectionId := "bridges",
    equipment := ["reformer"], level := "beginner",
    spring_setting := "1R+1B", reps := 5, duration_seconds := 60,
    variations := ["Heels", "Toes", "Arches"],
    props := ["Magic Circle", "Ball", "Dumbbell", "Band"] },
  { id := "br_reformer_unilateral", name := "Bridge - Unilateral", sectionId := "bridges",
    equipment := ["reformer"], level := "intermediate",
    spring_setting := "1R+1B", reps := 5, duration_seconds := 60,
    variations := ["Marches", "Hip Drops", "Leg Circle"] },
  { id := "br_hamstring_curl", name := "Heels on Hamstring Curl", sectionId := "bridges",
    equipment := ["chair"], level := "intermediate",
    spring_setting := "2@2", reps := 5, duration_seconds := 60 },
  { id := "br_pedal_bridge", name := "Bridge with Feet on Pedal", sectionId := "bridges",
    equipment := ["chair"], level := "intermediate",
    spring_setting := "2@2", reps := 5, duration_seconds := 60 },
  { id := "br_frog_back", name := "Frog Back", sectionId := "bridges",
    equipment := ["chair"], level := "intermediate",
    spring_setting := "2@2", reps := 5, duration_seconds := 60 },
  { id := "br_trx_hip_lift", name := "TRX Hip Lift", sectionId := "bridges",
    equipment := ["trx"], level := "intermediate",
    spring_setting := "", reps := 5, duration_seconds := 60 },
  -- Abdominals
  { id := "ab_hundred_prep", name := "Hundred Prep", sectionId := "abdominals",
    equipment := ["mat", "reformer"], level := "beginner",
    spring_setting := "1R or 1B", reps := 5, duration_seconds := 60 },
  { id := "ab_chest_lift", name := "Chest Lift", sectionId := "abdominals",
    equipment := ["mat", "reformer"], level := "beginner",
    spring_setting := "1R", reps := 8, duration_seconds := 45 },
  { id := "ab_supine_twist", name := "Supine Twist", sectionId := "abdominals",
    equipment := ["mat"], level := "beginner",
    spring_setting := "", reps := 5, duration_seconds := 45 },
  { id := "ab_dead_bug", name := "Dead Bug", sectionId := "abdominals",
    equipment := ["mat"], level := "beginner",
    spring_setting := "", reps := 8, duration_seconds := 60 },
  { id := "ab_hundred", name := "Hundred", sectionId := "abdominals",
    equipment := ["mat", "reformer"], level := "intermediate",
    spring_setting := "1R or 1B", reps := 10, duration_seconds := 90 },
  { id := "ab_roll_up", name := "Roll Up", sectionId := "abdominals",
    equipment := ["mat", "reformer"], level := "intermediate",
    spring_setting := "1R", reps := 5, duration_seconds := 60 },
  { id := "ab_series_five", name := "Series of Five", sectionId := "abdominals",
    equipment := ["mat"], level := "intermediate",
    spring_setting := "", reps := 10, duration_seconds := 120 },
  { id := "ab_coordination", name := "Coordination", sectionId := "abdominals",
    equipment := ["reformer"], level := "intermediate",
    spring_setting := "1R+1B", reps := 5, duration_seconds := 60 },
  { id := "ab_teaser", name := "Teaser", sectionId := "abdominals",
    equipment := ["mat", "reformer"], level := "intermediate",
    spring_setting := "1R", reps := 3, duration_seconds := 60 },
  { id := "ab_criss_cross", name := "Criss Cross", sectionId := "abdominals",
    equipment := ["mat"], level := "intermediate",
    spring_setting := "", reps := 8, duration_seconds := 60 },
  { id := "ab_short_box_round", name := "Short Box - Round Back", sectionId := "abdominals",
    equipment := ["reformer"], level := "intermediate",
    spring_setting := "1R", reps := 5, duration_seconds := 60, uses_box := true },
  { id := "ab_short_box_flat", name := "Short Box - Flat Back", sectionId := "abdominals",
    equipment := ["reformer"], level := "intermediate",
    spring_setting := "1R", reps := 5, duration_seconds := 60, uses_box := true },
  { id := "ab_short_box_twist", name := "Short Box - Twist", sectionId := "abdominals",
    equipment := ["reformer"], level := "intermediate",
    spring_setting := "1R", reps := 5, duration_seconds := 60, uses_box := true },
  { id := "ab_short_box_side", name := "Short Box - Side to Side", sectionId := "abdominals",
    equipment := ["reformer"], level := "intermediate",
    spring_setting := "1R", reps := 5, duration_seconds := 60, uses_box := true },
  -- Plank
  { id := "pl_front_plank", name := "Front Plank", sectionId := "plank",
    equipment := ["mat"], level := "beginner",
    spring_setting := "", reps := 3, duration_seconds := 30 },
  { id := "pl_knee_stretch", name := "Knee Stretch", sectionId := "plank",
    equipment := ["reformer"], level := "beginner",
    spring_setting := "1R+1B", reps := 8, duration_seconds := 45 },
  { id := "pl_long_stretch", name := "Long Stretch", sectionId := "plank",
    equipment := ["reformer"], level := "intermediate",
    spring_setting := "1R+1B", reps := 5, duration_seconds := 45 },
  { id := "pl_up_stretch", name := "Up Stretch", sectionId := "plank",
    equipment := ["reformer"], level := "advanced",
    spring_setting := "1R+1B", reps := 5, duration_seconds := 45 },
  { id := "pl_elephant", name := "Elephant", sectionId := "plank",
    equipment := ["reformer"], level := "intermediate",
    spring_setting := "1R+1B", reps := 5, duration_seconds := 45 },
  { id := "pl_pike", name := "Pike", sectionId := "plank",
    equipment := ["chair", "mat"], level := "intermediate",
    spring_setting := "1@2", reps := 5, duration_seconds := 45 },
  { id := "pl_mountain_climber", name := "Mountain Climber", sectionId := "plank",
    equipment := ["chair"], level := "intermediate",
    spring_setting := "1@2", reps := 8, duration_seconds := 45 },
  -- Upper Body
  { id := "ub_arm_circles", name := "Arm Circles", sectionId := "upper_body",
    equipment := ["mat"], level := "beginner",
    spring_setting := "", reps := 10, duration_seconds := 45 },
  { id := "ub_arm_work", name := "Arm Work Series", sectionId := "upper_body",
    equipment := ["reformer"], level := "beginner",
    spring_setting := "1R or 1B", reps := 10, duration_seconds := 90,
    variations := ["Biceps", "Triceps", "Chest", "Back"] },
  { id := "ub_chest_expansion", name := "Chest Expansion", sectionId := "upper_body",
    equipment := ["reformer", "springboard"], level := "beginner",
    spring_setting := "1R", reps := 5, duration_seconds := 45 },
  { id := "ub_rowing", name := "Rowing Series", sectionId := "upper_body",
    equipment := ["reformer"], level := "intermediate",
    spring_setting := "1R", reps := 5, duration_seconds := 90, uses_box := true },
  { id := "ub_hug_a_tree", name := "Hug a Tree", sectionId := "upper_body",
    equipment := ["reformer", "springboard"], level := "beginner",
    spring_setting := "1R", reps := 8, duration_seconds := 45 },
  { id := "ub_push_ups", name := "Push Ups", sectionId := "upper_body",
    equipment := ["mat", "chair"], level := "intermediate",
    spring_setting := "", reps := 3, duration_seconds := 45 },
  { id := "ub_trx_rows", name := "TRX Rows", sectionId := "upper_body",
    equipment := ["trx"], level := "intermediate",
    spring_setting := "", reps := 8, duration_seconds := 45 },
  -- Lower Body
  { id := "lb_leg_circles", name := "Leg Circles", sectionId := "lower_body",
    equipment := ["mat", "reformer"], level := "beginner",
    spring_setting := "2R", reps := 5, duration_seconds := 60 },
  { id := "lb_leg_press", name := "Leg Press", sectionId := "lower_body",
    equipment := ["springboard"], level := "beginner",
    spring_setting := "", reps := 10, duration_seconds := 60 },
  { id := "lb_standing_leg", name := "Standing Leg Series", sectionId := "lower_body",
    equipment := ["reformer", "chair"], level := "intermediate",
    spring_setting := "1R+1B", reps := 8, duration_seconds := 90 },
  { id := "lb_side_splits", name := "Side Splits", sectionId := "lower_body",
    equipment := ["reformer"], level := "intermediate",
    spring_setting := "1R", reps := 5, duration_seconds := 60 },
  { id := "lb_lunges", name := "Lunges", sectionId := "lower_body",
    equipment := ["reformer", "chair"], level := "intermediate",
    spring_setting := "1R+1B", reps := 5, duration_seconds := 60 },
  { id := "lb_scooter", name := "Scooter", sectionId := "lower_body",
    equipment := ["reformer"], level := "beginner",
    spring_setting := "1R+1B", reps := 8, duration_seconds := 45 },
  -- Lateral Line
  { id := "ll_side_lying", name := "Side Lying Series", sectionId := "lateral_line",
    equipment := ["mat", "reformer"], level := "beginner",
    spring_setting := "1R", reps := 8, duration_seconds := 90 },
  { id := "ll_mermaid", name := "Mermaid", sectionId := "lateral_line",
    equipment := ["reformer", "mat", "chair"], level := "beginner",
    spring_setting := "1R", reps := 5, duration_seconds := 60 },
  { id := "ll_side_bend", name := "Side Bend", sectionId := "lateral_line",
    equipment := ["mat"], level := "intermediate",
    spring_setting := "", reps := 5, duration_seconds := 45 },
  { id := "ll_kneeling_side", name := "Kneeling Side Kicks", sectionId := "lateral_line",
    equipment := ["reformer"], level := "intermediate",
    spring_setting := "1R", reps := 8, duration_seconds := 60 },
  -- Prone/Extension
  { id := "pe_swan", name := "Swan", sectionId := "prone_extension",
    equipment := ["mat", "reformer"], level := "intermediate",
    spring_setting := "1B", reps := 5, duration_seconds := 45 },
  { id := "pe_swimming", name := "Swimming", sectionId := "prone_extension",
    equipment := ["mat"], level := "beginner",
    spring_setting := "", reps := 5, duration_seconds := 45 },
  { id := "pe_pulling_straps", name := "Pulling Straps", sectionId := "prone_extension",
    equipment := ["reformer"], level := "beginner",
    spring_setting := "1R", reps := 5, duration_seconds := 60, uses_box := true },
  { id := "pe_back_extension", name := "Back Extension", sectionId := "prone_extension",
    equipment := ["chair", "barrel"], level := "intermediate",
    spring_setting := "1@2", reps := 5, duration_seconds := 60 },
  { id := "pe_rocking", name := "Rocking", sectionId := "prone_extension",
    equipment := ["mat"], level := "intermediate",
    spring_setting := "", reps := 5, duration_seconds := 45 },
  -- Full Body Integration
  { id := "fb_single_leg_stretch", name := "Single Leg Stretch", sectionId := "full_body",
    equipment := ["mat"], level := "beginner",
    spring_setting := "", reps := 8, duration_seconds := 60 },
  { id := "fb_rolling_like_ball", name := "Rolling Like a Ball", sectionId := "full_body",
    equipment := ["mat"], level := "beginner",
    spring_setting := "", reps := 6, duration_seconds := 45 },
  { id := "fb_full_body_stretch", name := "Full Body Stretch (Reformer)", sectionId := "full_body",
    equipment := ["reformer"], level := "beginner",
    spring_setting := "1R", reps := 5, duration_seconds := 60 },
  { id := "fb_control_balance", name := "Control Balance", sectionId := "full_body",
    equipment := ["mat"], level := "advanced",
    spring_setting := "", reps := 3, duration_seconds := 60 },
  { id := "fb_star", name := "Star", sectionId := "full_body",
    equipment := ["reformer"], level := "advanced",
    spring_setting := "1R", reps := 3, duration_seconds := 45 },
  { id := "fb_snake_twist", name := "Snake/Twist", sectionId := "full_body",
    equipment := ["reformer"], level := "advanced",
    spring_setting := "1R+1B", reps := 3, duration_seconds := 60 },
  { id := "fb_balance_control", name := "Balance Control", sectionId := "full_body",
    equipment := ["reformer", "chair"], level := "advanced",
    spring_setting := "1R", reps := 3, duration_seconds := 60 },
  { id := "fb_burpees", name := "Pilates Burpees", sectionId := "full_body",
    equipment := ["mat"], level := "intermediate",
    spring_setting := "", reps := 5, duration_seconds := 60 },
  -- Stretch
  { id := "st_hip_flexor", name := "Hip Flexor Stretch", sectionId := "stretch",
    equipment := ["mat", "reformer"], level := "beginner",
    spring_setting := "1B or none", reps := 3, duration_seconds := 60 },
  { id := "st_hamstring", name := "Hamstring Stretch", sectionId := "stretch",
    equipment := ["mat", "reformer", "springboard"], level := "beginner",
    spring_setting := "1B or none", reps := 3, duration_seconds := 60 },
  { id := "st_mermaid_stretch", name := "Mermaid Stretch", sectionId := "stretch",
    equipment := ["mat", "reformer"], level := "beginner",
    spring_setting := "1R", reps := 5, duration_seconds := 45 },
  { id := "st_spine_stretch", name := "Spine Stretch Forward", sectionId := "stretch",
    equipment := ["mat"], level := "beginner",
    spring_setting := "", reps := 5, duration_seconds := 45 },
  { id := "st_cat_cow", name := "Cat/Cow", sectionId := "stretch",
    equipment := ["mat"], level := "beginner",
    spring_setting := "", reps := 5, duration_seconds := 45 },
  { id := "st_childs_pose", name := "Child\x27s Pose", sectionId := "stretch",
    equipment := ["mat"], level := "beginner",
    spring_setting := "", reps := 1, duration_seconds := 30 }]

/-! ## The randomness oracle -/

/-- The random source: a stream of naturals.  An exhausted stream yields 0,
which is one legal outcome of every draw. -/
abbrev RandS := List Nat

def nextR : RandS → Nat × RandS
  | [] => (0, [])
  | n :: rest => (n, rest)

/-- One `random.random()` draw, discretized to thousandths: the result `n`
stands for the real number n/1000 in [0, 1). -/
def randFloatR (r : RandS) : Nat × RandS :=
  let (n, r1) := nextR r
  (n % 1000, r1)

/-- `random.randint(lo, hi)`: uniform on [lo, hi]; raises ValueError (here:
`none`) when `hi < lo`. -/
def randintR (lo hi : Nat) (r : RandS) : Option (Nat × RandS) :=
  if hi < lo then none
  else
    let (n, r1) := nextR r
    some (lo + n % (hi - lo + 1), r1)

/-- `random.choice(xs)` on a list of naturals (all call sites guard
non-emptiness). -/
def choiceR (xs : List Nat) (r : RandS) : Nat × RandS :=
  let (n, r1) := nextR r
  (xs.getD (n % xs.length) 0, r1)

def swapAt (xs : List α) (i j : Nat) : List α :=
  match xs.get? i, xs.get? j with
  | some a, some b => (xs.set i b).set j a
  | _, _ => xs

/-- CPython Fisher-Yates: for i = len-1 .. 1, draw j below i+1 and swap
positions i and j.  The counter k+1 is the current index i. -/
def shuffleGo : List α → Nat → RandS → List α × RandS
  | xs, 0, r => (xs, r)
  | xs, k+1, r =>
    let (n, r1) := nextR r
    shuffleGo (swapAt xs (k+1) (n % (k+2))) k r1

def shuffleR (xs : List α) (r : RandS) : List α × RandS :=
  shuffleGo xs (xs.length - 1) r

/-! ## Level helpers -/

/-- The literal dict inside `_level_matches`, ranks stored times 10. -/
def level_order : List (String × Nat) :=
  [("beginner", 10), ("intermediate", 15), ("advanced", 20), ("advanced_plus", 25)]

/-- `level_order.get(level, 1.5)`. -/
def levelRank (level : String) : Nat :=
  match level_order.lookup level with
  | some v => v
  | none => 15

def _level_matches (exercise_level target_level : String) : Bool :=
  decide (levelRank exercise_level ≤ levelRank target_level)

/-- `_get_level_config`: first configured level with this id, defaulting to
EXPERIENCE_LEVELS[1] (intermediate). -/
def _get_level_config (level : String) : LevelConfig :=
  match EXPERIENCE_LEVELS.find? (fun lvl => lvl.id == level) with
  | some cfg => cfg
  | none => EXPERIENCE_LEVELS.getD 1
      { id := "", name := "", level_num_x10 := 0, rep_multiplier_x100 := 0,
        exercise_count_multiplier_x20 := 0, max_transitions := 0 }

/-! ## Per-section equipment counters (insertion-ordered dicts) -/

/-- `eq_counts[eq] = eq_counts.get(eq, 0) + 1` on an insertion-ordered
association list. -/
def bumpCount : List (String × Nat) → String → List (String × Nat)
  | [], eq => [(eq, 1)]
  | (k, v) :: rest, eq =>
    if k == eq then (k, v + 1) :: rest else (k, v) :: bumpCount rest eq

def countGet (counts : List (String × Nat)) (eq : String) : Nat :=
  match counts.lookup eq with
  | some v => v
  | none => 0

def maxCountKeyGo : List (String × Nat) → String → Nat → String
  | [], bestK, _ => bestK
  | (k, v) :: rest, bestK, bestV =>
    if v > bestV then maxCountKeyGo rest k v else maxCountKeyGo rest bestK bestV

/-- Python `max(eq_counts, key=eq_counts.get)`: the first key (in insertion
order) of maximal count.  Callers guard non-emptiness. -/
def maxCountKey : List (String × Nat) → String
  | [] => ""
  | (k, v) :: rest => maxCountKeyGo rest k v

/-- The per-section, per-equipment usable-exercise counter built at the top
of `_allocate_equipment_blocks` (and rebuilt inside
`_optimize_section_order` from the by-section grouping, which preserves
catalog order, so the two agree). -/
def sectionEqCounts (allowed_equipment : List String) (level : String) (section_id : String) :
    List (String × Nat) :=
  EXERCISES.foldl
    (fun counts ex =>
      if ex.sectionId == section_id && _level_matches ex.level level then
        ex.equipment.foldl
          (fun c eq => if allowed_equipment.contains eq then bumpCount c eq else c) counts
      else counts)
    []

/-! ## Equipment allocation -/

def primaryOf (allowed_equipment : List String) : String :=
  match allowed_equipment with
  | [] => "mat"
  | e :: _ => e

def secondaryOf (allowed_equipment : List String) : Option String := allowed_equipment[1]?

/-- The tail of the initial-allocation chain after the primary and secondary
preferences: mat, else the best-stocked equipment, else the primary as a
last resort. -/
def allocationFallback (counts : List (String × Nat)) (primary : String) : String :=
  if decide (0 < countGet counts "mat") then "mat"
  else if !counts.isEmpty then maxCountKey counts
  else primary

/-- The initial allocation of one section (the first loop of
`_allocate_equipment_blocks`). -/
def defaultAllocation (allowed_equipment : List String) (level : String) (s : Sect) : String :=
  let counts := sectionEqCounts allowed_equipment level s.id
  let primary := primaryOf allowed_equipment
  if s.id == "stretch" && decide (0 < countGet counts "mat") then "mat"
  else if decide (0 < countGet counts primary) then primary
  else
    match secondaryOf allowed_equipment with
    | some sec =>
      if decide (0 < countGet counts sec) then sec else allocationFallback counts primary
    | none => allocationFallback counts primary

/-- Indices of sections that may take the secondary equipment: not the
first section, not the stretch section, and at least one usable secondary
exercise.  Built in increasing index order, so the source's subsequent
`sort()` is the identity and is omitted. -/
def secondaryEligible (ordered_sections : List Sect) (allowed_equipment : List String)
    (level : String) (sec : String) : List Nat :=
  (ordered_sections.enum.filter
    (fun p =>
      !(p.1 == 0 || p.2.id == "stretch") &&
      decide (1 ≤ countGet (sectionEqCounts allowed_equipment level p.2.id) sec))).map Prod.fst

/-- `max(1, int(n_sections * 0.3))`.  In every reachable call n_sections is
10 and the source's float product 10 * 0.3 is exactly 3.0, so the integer
truncation agrees with this rational floor. -/
def minStartOf (n_sections : Nat) : Nat := max 1 (3 * n_sections / 10)

def eligibleStarts (eligible : List Nat) (n_sections : Nat) : List Nat :=
  eligible.filter (fun i => decide (minStartOf n_sections ≤ i))

/-- The start-position choice (lines picking from the first half with
probability 0.7 when more than two starts are eligible). -/
def chooseStart (starts : List Nat) (r : RandS) : Nat × RandS :=
  if starts.length > 2 then
    let (d, r1) := randFloatR r
    if d < 700 then choiceR (starts.take (starts.length / 2 + 1)) r1
    else choiceR starts r1
  else (starts.headD 0, r)

/-- The body of the consecutive-run scan: append while the next eligible
index extends the run, break at the first gap beyond it. -/
def consecutiveFromAux (start : Nat) : List Nat → Nat → List Nat
  | [], _ => []
  | n :: rest, last =>
    if decide (start < n) && n == last + 1 then n :: consecutiveFromAux start rest n
    else if decide (last + 1 < n) then []
    else consecutiveFromAux start rest last

/-- `consecutive`: the maximal run of consecutive eligible indices starting
at `start`. -/
def consecutiveFrom (eligible : List Nat) (start : Nat) : List Nat :=
  start :: consecutiveFromAux start eligible start

/-- Reassignment of every section after the secondary run (mat, else
secondary, else primary, else best-stocked). -/
def postRunAssign (allocations : List String) (ordered_sections : List Sect)
    (allowed_equipment : List String) (level : String) (sec primary : String)
    (last_secondary : Nat) : List String :=
  ((List.range allocations.length).drop (last_secondary + 1)).foldl
    (fun a i =>
      let section_id := (ordered_sections.getD i FIXED_FIRST).id
      let counts := sectionEqCounts allowed_equipment level section_id
      if allowed_equipment.contains "mat" && decide (0 < countGet counts "mat") then
        a.set i "mat"
      else if decide (0 < countGet counts sec) then a.set i sec
      else if decide (0 < countGet counts primary) then a.set i primary
      else if !counts.isEmpty then a.set i (maxCountKey counts)
      else a)
    allocations

def insertSet (l : List String) (x : String) : List String :=
  if l.contains x then l else l ++ [x]

/-- The left-to-right scan of `_enforce_linear_flow`, carrying the abandoned
set and the currently active equipment.  The source passes the counts dict
in; it is recomputed here via `sectionEqCounts`, which is the same data. -/
def enforceGo (allowed_equipment : List String) (level : String) :
    List (Sect × String) → List String → Option String → List String
  | [], _, _ => []
  | (s, eq) :: rest, abandoned, current =>
    let abandoned1 :=
      match current with
      | some c => if eq != c then insertSet abandoned c else abandoned
      | none => abandoned
    if abandoned1.contains eq then
      let counts := sectionEqCounts allowed_equipment level s.id
      let fixToCurrent : Bool :=
        match current with
        | some c => decide (0 < countGet counts c)
        | none => false
      if fixToCurrent then
        let c := match current with | some c => c | none => eq
        c :: enforceGo allowed_equipment level rest abandoned1 (some c)
      else if allowed_equipment.contains "mat" && decide (0 < countGet counts "mat") then
        "mat" :: enforceGo allowed_equipment level rest abandoned1 (some "mat")
      else
        eq :: enforceGo allowed_equipment level rest (abandoned1.erase eq) (some eq)
    else
      eq :: enforceGo allowed_equipment level rest abandoned1 (some eq)

def _enforce_linear_flow (allocations : List String) (ordered_sections : List Sect)
    (allowed_equipment : List String) (level : String) : List String :=
  if allocations.length ≤ 1 then allocations
  else enforceGo allowed_equipment level (ordered_sections.zip allocations) [] none

/-! ## Block sequencing (`_optimize_section_order`) -/

/-- The by-section grouping built at the top of `_generate_class_attempt`.
Grouping preserves catalog order, so the dict entry for a section id equals
this filter, and absence of the key equals the filter being empty. -/
def exercises_by_section (section_id : String) : List Exercise :=
  EXERCISES.filter (fun ex => ex.sectionId == section_id)

/-- `_optimize_section_order`: split the flexible sections into
primary-only and secondary-capable (at the target level), concatenate, then
append any section not yet present (never triggered, since the split is a
partition). -/
def _optimize_section_order (allowed_equipment : List String) (level : String) : List Sect :=
  let pair := FLEXIBLE_SECTIONS.foldl
    (fun (acc : List Sect × List Sect) s =>
      if (exercises_by_section s.id).isEmpty then (acc.1 ++ [s], acc.2)
      else
        match secondaryOf allowed_equipment with
        | some sec =>
          if decide (0 < countGet (sectionEqCounts allowed_equipment level s.id) sec) then
            (acc.1, acc.2 ++ [s])
          else (acc.1 ++ [s], acc.2)
        | none => (acc.1 ++ [s], acc.2))
    ([], [])
  let ordered := pair.1 ++ pair.2
  FLEXIBLE_SECTIONS.foldl (fun o s => if o.contains s then o else o ++ [s]) ordered

/-! ## The equipment allocator (`_allocate_equipment_blocks`) -/

/-- `_allocate_equipment_blocks`.  Returns `none` exactly when the source
raises ValueError in `random.randint` (lower bound above the clamped upper
bound).  `List.set` is a no-op out of range, matching the source's
`section_idx < len(allocations)` guard on the run-reassignment loop.  The
source also binds `tertiary_equipment` and receives `max_transitions`; both
are never read afterwards. -/
def _allocate_equipment_blocks (ordered_sections : List Sect)
    (allowed_equipment : List String) (level : String) (max_transitions : Nat)
    (r : RandS) : Option (List String × RandS) :=
  let primary := primaryOf allowed_equipment
  let defaults := ordered_sections.map (defaultAllocation allowed_equipment level)
  let (pattern_roll, r1) := randFloatR r
  let n_sections := ordered_sections.length
  match secondaryOf allowed_equipment with
  | none =>
    some (_enforce_linear_flow defaults ordered_sections allowed_equipment level, r1)
  | some sec =>
    if decide (100 < pattern_roll) then
      let eligible := secondaryEligible ordered_sections allowed_equipment level sec
      if eligible.isEmpty then
        some (_enforce_linear_flow defaults ordered_sections allowed_equipment level, r1)
      else
        match (if decide (550 < pattern_roll) then randintR 4 (min 6 eligible.length) r1
               else randintR 3 (min 5 eligible.length) r1) with
        | none => none
        | some (num_secondary, r2) =>
          let starts := eligibleStarts eligible n_sections
          if starts.isEmpty then
            some (_enforce_linear_flow defaults ordered_sections allowed_equipment level, r2)
          else
            let (start_idx, r3) := chooseStart starts r2
            let consecutive := consecutiveFrom eligible start_idx
            let withRun := (consecutive.take num_secondary).foldl
              (fun a i => a.set i sec) defaults
            let last_secondary :=
              consecutive.getD (min num_secondary consecutive.length - 1) 0
            let final := postRunAssign withRun ordered_sections allowed_equipment level
              sec primary last_secondary
            some (_enforce_linear_flow final ordered_sections allowed_equipment level, r3)
    else
      some (_enforce_linear_flow defaults ordered_sections allowed_equipment level, r1)

/-- The list of section indices the variety branch of
`_allocate_equipment_blocks` reassigns to the secondary equipment, computed
through the same helper definitions, with the same draws in the same order;
`none` when the branch is not taken or the source raises. -/
def allocVarietyRun (ordered_sections : List Sect) (allowed_equipment : List String)
    (level : String) (r : RandS) : Option (List Nat) :=
  let (pattern_roll, r1) := randFloatR r
  match secondaryOf allowed_equipment with
  | none => none
  | some sec =>
    if decide (100 < pattern_roll) then
      let eligible := secondaryEligible ordered_sections allowed_equipment level sec
      if eligible.isEmpty then none
      else
        match (if decide (550 < pattern_roll) then randintR 4 (min 6 eligible.length) r1
               else randintR 3 (min 5 eligible.length) r1) with
        | none => none
        | some (num_secondary, r2) =>
          let starts := eligibleStarts eligible ordered_sections.length
          if starts.isEmpty then none
          else
            let (start_idx, _) := chooseStart starts r2
            some ((consecutiveFrom eligible start_idx).take num_secondary)
    else none

/-! ## Plans -/

/-- One selected exercise inside a plan section (the dict appended to
`selected`). -/
structure PlanExercise where
  id : String
  name : String
  equipment : String
  spring_setting : String
  reps : Nat
  duration_seconds : Nat
  variations : List String
  props : List String
  uses_box : Bool
deriving DecidableEq

/-- One section of a plan.  `allocated_minutes_x10T` stores the exact value
`typical_minutes * duration / total_typical` scaled by `10 * total_typical`
(the source rounds the float to one decimal for display only). -/
structure PlanSection where
  id : String
  name : String
  order : Nat
  allocated_minutes_x10T : Nat
  exercises : List PlanExercise
deriving DecidableEq

/-- The class-plan dict assembled by `_generate_class_attempt`. -/
structure ClassPlan where
  duration_minutes : Nat
  level : String
  level_name : String
  equipment : List String
  sections : List PlanSection
  total_exercises : Nat
  equipment_flow : List String
  transitions : Nat
  max_transitions : Nat
deriving DecidableEq

/-! ## Content selection -/

/-- The selection-loop state threaded across sections. -/
structure SelState where
  current_equipment : Option String
  last_spring : Option String
  is_first_exercise : Bool
  transitions : Nat
  equipment_flow : List String
deriving DecidableEq

/-- The transition bookkeeping of the selection loop, verbatim: only a
spring change without an equipment change is considered; the item is
skipped (`none`, the source's `continue`) when the cap is reached and the
section already has an item; the count is incremented only under the cap. -/
def stepTransitions (is_first_exercise has_spring_transition has_equipment_transition
    section_has_exercise : Bool) (transitions max_transitions : Nat) : Option Nat :=
  if !is_first_exercise && has_spring_transition && !has_equipment_transition then
    if decide (max_transitions ≤ transitions) && section_has_exercise then none
    else if decide (transitions < max_transitions) then some (transitions + 1)
    else some transitions
  else some transitions

def mkPlanExercise (ex : Exercise) (allocated_equipment effective_spring : String) :
    PlanExercise :=
  { id := ex.id, name := ex.name, equipment := allocated_equipment,
    spring_setting := effective_spring, reps := ex.reps,
    duration_seconds := ex.duration_seconds,
    variations := ex.variations.take 2, props := ex.props, uses_box := ex.uses_box }

/-- The per-exercise selection loop of `_generate_class_attempt`.  Time is
scaled by `20 * total_typical` (`durScale`), so the budget is an exact
integer; `remaining` may go negative, hence Int. -/
def selectLoop (allocated_equipment : String) (max_transitions durScale : Nat) :
    List Exercise → Int → Bool → List PlanExercise → SelState →
    List PlanExercise × Bool × SelState
  | [], _, section_has, acc, st => (acc, section_has, st)
  | ex :: rest, remaining, section_has, acc, st =>
    if decide (remaining ≤ 0) && section_has then (acc, section_has, st)
    else if decide (((ex.duration_seconds * durScale : Nat) : Int) ≤ remaining) || !section_has then
      let has_equipment_transition := st.current_equipment != some allocated_equipment
      let effective_spring := if allocated_equipment != "mat" then ex.spring_setting else ""
      let has_spring_transition :=
        effective_spring != "" &&
        (match st.last_spring with
         | none => true
         | some ls => effective_spring != ls)
      match stepTransitions st.is_first_exercise has_spring_transition
          has_equipment_transition section_has st.transitions max_transitions with
      | none =>
        selectLoop allocated_equipment max_transitions durScale rest remaining section_has acc st
      | some t1 =>
        let st1 :=
          if has_equipment_transition then
            { st with
              transitions := t1
              current_equipment := some allocated_equipment
              equipment_flow := st.equipment_flow ++ [allocated_equipment]
              last_spring := none }
          else { st with transitions := t1 }
        let st2 :=
          if effective_spring != "" then { st1 with last_spring := some effective_spring }
          else st1
        let st3 := { st2 with is_first_exercise := false }
        selectLoop allocated_equipment max_transitions durScale rest
          (remaining - ((ex.duration_seconds * durScale : Nat) : Int)) true
          (acc ++ [mkPlanExercise ex allocated_equipment effective_spring]) st3
    else selectLoop allocated_equipment max_transitions durScale rest remaining section_has acc st

/-- The `spring_priority` sort keys, one random tiebreak draw per element,
computed in (post-shuffle) list order, exactly as CPython evaluates the
key function once per element before sorting. -/
def drawKeys (allocated_equipment : String) (last_spring : Option String) :
    List Exercise → RandS → List (Exercise × Nat × Nat) × RandS
  | [], r => ([], r)
  | ex :: rest, r =>
    let ex_spring := if allocated_equipment != "mat" then ex.spring_setting else ""
    let same_spring : Nat :=
      if (match last_spring with
          | none => true
          | some ls => ex_spring == ls) then 0 else 1
    let (n, r1) := nextR r
    let (ks, r2) := drawKeys allocated_equipment last_spring rest r1
    ((ex, same_spring, n) :: ks, r2)

def insertLe (le : α → α → Bool) (x : α) : List α → List α
  | [] => [x]
  | y :: ys => if le y x then y :: insertLe le x ys else x :: y :: ys

/-- Stable insertion sort.  For a total preorder the stable-sorted
permutation is unique, so this agrees with CPython's (stable) list.sort. -/
def stableSortBy (le : α → α → Bool) (xs : List α) : List α :=
  xs.foldl (fun acc x => insertLe le x acc) []

/-- Lexicographic order on (same_spring, random tiebreak). -/
def springKeyLe (a b : Nat × Nat) : Bool :=
  decide (a.1 < b.1) || (a.1 == b.1 && decide (a.2 ≤ b.2))

/-- Fill one section: filter candidates by allocated equipment and level,
shuffle, key and stable-sort, then run the selection loop.  The initial
budget is `typical * (duration/total_typical) * 60 * (mult/20)` scaled by
`20 * total_typical`. -/
def runSection (duration_minutes total_typical multx20 : Nat) (level : String)
    (max_transitions idx : Nat) (s : Sect) (allocated_equipment : String)
    (st : SelState) (r : RandS) : PlanSection × SelState × RandS :=
  let available := EXERCISES.filter (fun ex =>
    ex.sectionId == s.id && ex.equipment.contains allocated_equipment &&
    _level_matches ex.level level)
  let (shuffled, r1) := shuffleR available r
  let (keyed, r2) := drawKeys allocated_equipment st.last_spring shuffled r1
  let sorted := (stableSortBy (fun a b => springKeyLe a.2 b.2) keyed).map Prod.fst
  let section_seconds_scaled : Int :=
    ((s.typical_minutes * 60 * duration_minutes * multx20 : Nat) : Int)
  let res := selectLoop allocated_equipment max_transitions (20 * total_typical) sorted
    section_seconds_scaled false [] st
  ({ id := s.id, name := s.name, order := idx + 1,
     allocated_minutes_x10T := s.typical_minutes * duration_minutes * 10,
     exercises := res.1 }, res.2.2, r2)

def runSections (duration_minutes total_typical multx20 : Nat) (level : String)
    (max_transitions : Nat) :
    List (Sect × String) → Nat → SelState → RandS →
    List PlanSection × SelState × RandS
  | [], _, st, r => ([], st, r)
  | (s, eqp) :: rest, idx, st, r =>
    let one := runSection duration_minutes total_typical multx20 level max_transitions
      idx s eqp st r
    let tail := runSections duration_minutes total_typical multx20 level max_transitions
      rest (idx + 1) one.2.1 one.2.2
    (one.1 :: tail.1, tail.2.1, tail.2.2)

/-! ## One generation attempt -/

def orderedSectionsFor (allowed_equipment : List String) (level : String) : List Sect :=
  FIXED_FIRST :: _optimize_section_order allowed_equipment level ++ [FIXED_LAST]

/-- Assemble the class-plan dict from the ordered sections and the
equipment allocations.  `allowed_equipment` is used only for the plan's
`equipment` field. -/
def buildPlan (duration_minutes : Nat) (level : String) (level_config : LevelConfig)
    (allowed_equipment : List String) (max_transitions : Nat)
    (ordered_sections : List Sect) (allocations : List String) (r : RandS) :
    ClassPlan × RandS :=
  let total_typical := (ordered_sections.map Sect.typical_minutes).sum
  let res := runSections duration_minutes total_typical
    level_config.exercise_count_multiplier_x20 level max_transitions
    (ordered_sections.zip allocations) 0
    { current_equipment := none, last_spring := none, is_first_exercise := true,
      transitions := 0, equipment_flow := [] } r
  ({ duration_minutes := duration_minutes, level := level,
     level_name := level_config.name, equipment := allowed_equipment,
     sections := res.1,
     total_exercises := (res.1.map (fun s => s.exercises.length)).sum,
     equipment_flow := res.2.1.equipment_flow, transitions := res.2.1.transitions,
     max_transitions := max_transitions }, res.2.2)

/-- `_generate_class_attempt`.  The source also receives `max_equipment`
but never reads it inside the attempt; it is omitted.  `none` when the
allocator raises. -/
def _generate_class_attempt (duration_minutes : Nat) (level : String)
    (level_config : LevelConfig) (allowed_equipment : List String)
    (max_transitions : Nat) (r : RandS) : Option (ClassPlan × RandS) :=
  let ordered_sections := orderedSectionsFor allowed_equipment level
  match _allocate_equipment_blocks ordered_sections allowed_equipment level
      max_transitions r with
  | none => none
  | some (allocations, r1) =>
    some (buildPlan duration_minutes level level_config allowed_equipment
      max_transitions ordered_sections allocations r1)

/-! ## Validation -/

/-- The violation messages of `_validate_class`, modeled structurally (the
source appends formatted strings carrying the same data). -/
inductive Violation where
  | emptySection (name : String)
  | tooManyTransitions (count limit : Nat)
  | tooManyEquipment (count limit : Nat)
deriving DecidableEq

/-- The `used_equipment` set of `_validate_class`, as a duplicate-free list
(first-use order); its length is the set's cardinality. -/
def usedEquipment (class_plan : ClassPlan) : List String :=
  class_plan.sections.foldl
    (fun acc s => s.exercises.foldl
      (fun a e =>
        if e.equipment != "" && !a.contains e.equipment then a ++ [e.equipment] else a)
      acc)
    []

/-- `_validate_class` (its `allowed_equipment` and `level` parameters are
never read and are omitted).  Returns (is_valid, violations). -/
def _validate_class (class_plan : ClassPlan) (max_equipment : Nat) :
    Bool × List Violation :=
  let empties := class_plan.sections.filterMap
    (fun s => if s.exercises.isEmpty then some (Violation.emptySection s.name) else none)
  let trans :=
    if decide (class_plan.max_transitions < class_plan.transitions) then
      [Violation.tooManyTransitions class_plan.transitions class_plan.max_transitions]
    else []
  let used := usedEquipment class_plan
  let eqv :=
    if decide (max_equipment < used.length) then
      [Violation.tooManyEquipment used.length max_equipment]
    else []
  let violations := empties ++ trans ++ eqv
  (violations.isEmpty, violations)

/-! ## The generation loop -/

def renumberFrom : Nat → List PlanSection → List PlanSection
  | _, [] => []
  | i, s :: rest => { s with order := i + 1 } :: renumberFrom (i + 1) rest

/-- The final fallback step of `generate_class`: drop every section with an
empty exercise list and renumber the survivors 1..k. -/
def pruneEmptySections (class_plan : ClassPlan) : ClassPlan :=
  { class_plan with
    sections :=
      renumberFrom 0 (class_plan.sections.filter (fun s => !s.exercises.isEmpty)) }

/-- Best-plan tracking: `none` models the initial infinite violation count,
and a strictly smaller count replaces the tracked plan. -/
def updateBest (best : Option (ClassPlan × Nat)) (plan : ClassPlan) (nviol : Nat) :
    Option (ClassPlan × Nat) :=
  match best with
  | none => some (plan, nviol)
  | some (bp, bn) => if nviol < bn then some (plan, nviol) else some (bp, bn)

/-- The retry loop of `generate_class`.  A valid plan is returned as is;
when the retries are exhausted the best plan is pruned and returned.  With
zero retries and no tracked plan the source hits an unbound local
(`class_plan`) and raises NameError: modeled as `none`. -/
def generateLoop (duration_minutes : Nat) (level : String) (level_config : LevelConfig)
    (allowed_equipment : List String) (max_transitions max_equipment : Nat) :
    Nat → Option (ClassPlan × Nat) → RandS → Option ClassPlan
  | 0, best, _ =>
    (match best with
     | some (bp, _) => some (pruneEmptySections bp)
     | none => none)
  | k + 1, best, r =>
    match _generate_class_attempt duration_minutes level level_config allowed_equipment
        max_transitions r with
    | none => none
    | some (class_plan, r1) =>
      let v := _validate_class class_plan max_equipment
      if v.1 then some class_plan
      else
        generateLoop duration_minutes level level_config allowed_equipment
          max_transitions max_equipment k (updateBest best class_plan v.2.length) r1

/-- `generate_class`: default the equipment list when absent, default the
transition cap from the level config, run up to `max_retries` attempts. -/
def generate_class (duration_minutes : Nat) (level : String)
    (allowed_equipment : Option (List String)) (max_transitions : Option Nat)
    (max_retries : Nat) (r : RandS) : Option ClassPlan :=
  let allowed :=
    match allowed_equipment with
    | none => ["reformer"]
    | some l => l
  let level_config := _get_level_config level
  let mt :=
    match max_transitions with
    | none => level_config.max_transitions
    | some m => m
  generateLoop duration_minutes level level_config allowed mt 3 max_retries none r

/-! ## Generic helpers for claim statements -/

def optAll (p : α → Bool) : Option α → Bool
  | none => true
  | some a => p a

def isTransitionViolation : Violation → Bool
  | .tooManyTransitions _ _ => true
  | _ => false

/-- The classification predicate of `_optimize_section_order`: a flexible
section goes to the tail group exactly when its exercise group is present
and the secondary preferred equipment has at least one usable item at the
target level. -/
def sectionSecondaryCapable (allowed_equipment : List String) (level : String)
    (s : Sect) : Bool :=
  !(exercises_by_section s.id).isEmpty &&
  (match secondaryOf allowed_equipment with
   | some sec => decide (0 < countGet (sectionEqCounts allowed_equipment level s.id) sec)
   | none => false)

/-- Erase the `equipment` echo field of a plan (used to compare plans
produced from different equipment arguments). -/
def stripEquip (p : ClassPlan) : ClassPlan := { p with equipment := [] }

/-- The section-id shape every attempt plan has: footwork first, stretch
last, and no flexible section carrying either fixed id in between. -/
def planIdsShape (p : ClassPlan) : Prop :=
  ∃ mids, p.sections.map PlanSection.id = "footwork" :: (mids ++ ["stretch"]) ∧
    ∀ x ∈ mids, x ≠ "footwork" ∧ x ≠ "stretch"

/-! ## Pruning lemmas (towards C1, C3, C9) -/

theorem renumberFrom_renumberFrom (i : Nat) (l : List PlanSection) :
    renumberFrom i (renumberFrom i l) = renumberFrom i l := by
  induction l generalizing i with
  | nil => rfl
  | cons s rest ih => simp [renumberFrom, ih]

theorem renumberFrom_map_id (i : Nat) (l : List PlanSection) :
    (renumberFrom i l).map PlanSection.id = l.map PlanSection.id := by
  induction l generalizing i with
  | nil => rfl
  | cons s rest ih => simp [renumberFrom, ih]

theorem mem_renumberFrom_exercises {x : PlanSection} :
    ∀ {i : Nat} {l : List PlanSection}, x ∈ renumberFrom i l →
      ∃ y ∈ l, x.exercises = y.exercises := by
  intro i l
  induction l generalizing i with
  | nil => intro h; cases h
  | cons s rest ih =>
    intro h
    rw [renumberFrom] at h
    rcases List.mem_cons.mp h with hx | hx
    · exact ⟨s, by simp, by rw [hx]⟩
    · obtain ⟨y, hy, hxy⟩ := ih hx
      exact ⟨y, List.mem_cons_of_mem _ hy, hxy⟩

theorem filter_renumberFrom_filter (i : Nat) (l : List PlanSection) :
    (renumberFrom i (l.filter (fun s => !s.exercises.isEmpty))).filter
        (fun s => !s.exercises.isEmpty) =
      renumberFrom i (l.filter (fun s => !s.exercises.isEmpty)) := by
  apply List.filter_eq_self.mpr
  intro s hs
  obtain ⟨y, hy, hxy⟩ := mem_renumberFrom_exercises hs
  have := List.of_mem_filter hy
  simpa [hxy] using this

theorem pruneEmptySections_sections_nonempty (p : ClassPlan) :
    (pruneEmptySections p).sections.all (fun s => !s.exercises.isEmpty) = true := by
  rw [List.all_eq_true]
  intro s hs
  obtain ⟨y, hy, hxy⟩ := mem_renumberFrom_exercises hs
  have := List.of_mem_filter hy
  simpa [hxy] using this

/-! ## Validator lemmas -/

theorem validate_valid_no_empty (p : ClassPlan) (me : Nat)
    (h : (_validate_class p me).1 = true) :
    ∀ s ∈ p.sections, s.exercises.isEmpty = false := by
  intro s hs
  by_contra hne
  rw [Bool.not_eq_false, List.isEmpty_iff] at hne
  simp only [_validate_class, List.isEmpty_iff, List.append_eq_nil] at h
  have hnil := h.1.1
  rw [List.filterMap_eq_nil_iff] at hnil
  have hcontra := hnil s hs
  rw [if_pos hne] at hcontra
  exact Option.noConfusion hcontra

theorem validate_valid_equipment (p : ClassPlan) (me : Nat)
    (h : (_validate_class p me).1 = true) : (usedEquipment p).length ≤ me := by
  by_contra hgt
  push_neg at hgt
  simp only [_validate_class, List.isEmpty_iff, List.append_eq_nil] at h
  have heqv := h.2
  rw [if_pos (by simpa using hgt)] at heqv
  exact List.noConfusion heqv

theorem validate_no_transition_violation (p : ClassPlan) (me : Nat)
    (hle : p.transitions ≤ p.max_transitions) :
    (_validate_class p me).2.all (fun v => !isTransitionViolation v) = true := by
  rw [List.all_eq_true]
  intro v hv
  simp only [_validate_class] at hv
  rw [if_neg (by simpa using not_lt.mpr hle), List.append_nil] at hv
  rcases List.mem_append.mp hv with hv1 | hv2
  · obtain ⟨s, _, hval⟩ := List.mem_filterMap.mp hv1
    by_cases hemp : s.exercises.isEmpty
    · rw [if_pos hemp] at hval
      cases hval
      rfl
    · rw [if_neg hemp] at hval
      exact Option.noConfusion hval
  · revert hv2
    split
    · intro hv3
      cases List.mem_singleton.mp hv3
      rfl
    · intro hv3
      cases hv3

/-! ## The returned plan never has an empty section (towards C1) -/

theorem generateLoop_no_empty (d : Nat) (lvl : String) (cfg : LevelConfig)
    (allowed : List String) (mt me : Nat) :
    ∀ (k : Nat) (best : Option (ClassPlan × Nat)) (r : RandS),
      optAll (fun p => p.sections.all (fun s => !s.exercises.isEmpty))
        (generateLoop d lvl cfg allowed mt me k best r) = true := by
  intro k
  induction k with
  | zero =>
    intro best r
    cases best with
    | none => rfl
    | some pr =>
      obtain ⟨bp, bn⟩ := pr
      simpa [generateLoop, optAll] using pruneEmptySections_sections_nonempty bp
  | succ k ih =>
    intro best r
    simp only [generateLoop]
    cases hA : _generate_class_attempt d lvl cfg allowed mt r with
    | none => rfl
    | some pr =>
      obtain ⟨plan, r1⟩ := pr
      dsimp only
      by_cases hv : (_validate_class plan me).1 = true
      · simp only [hv, if_true, optAll]
        rw [List.all_eq_true]
        intro s hs
        have := validate_valid_no_empty plan me hv s hs
        simp [this]
      · rw [if_neg hv]
        exact ih _ _

/-- Claim C1: every section of every plan returned by generate_class has a
non-empty exercises list (first-valid plans by the validator's empty-block
check, fallback plans by the final pruning); when the call raises
(modeled `none`) no plan is returned and the property is vacuous. -/
theorem c1_no_empty_sections (d : Nat) (lvl : String) (eqOpt : Option (List String))
    (mtOpt : Option Nat) (retries : Nat) (r : RandS) :
    optAll (fun p => p.sections.all (fun s => !s.exercises.isEmpty))
      (generate_class d lvl eqOpt mtOpt retries r) = true := by
  unfold generate_class
  exact generateLoop_no_empty _ _ _ _ _ _ retries none r

/-- Claim C9: the final pruning step (drop empty sections, renumber from 1)
is idempotent on every plan. -/
theorem c9_pruning_idempotent (p : ClassPlan) :
    pruneEmptySections (pruneEmptySections p) = pruneEmptySections p := by
  show { pruneEmptySections p with
         sections := renumberFrom 0 ((renumberFrom 0
           (p.sections.filter (fun s => !s.exercises.isEmpty))).filter
             (fun s => !s.exercises.isEmpty)) }
      = pruneEmptySections p
  rw [filter_renumberFrom_filter, renumberFrom_renumberFrom]
  rfl

/-- Claim C4, counterexample: the first item placed into a section (the
whole-plan first already selected, `section_has_exercise` still false) with
a spring change and no equipment change does increment the running
transition count (here from 0 to 1 under cap 6) - the source only exempts
such an item from being skipped, not from being counted. -/
theorem c4_counterexample : stepTransitions false true false false 0 6 = some 1 := rfl

/-- Claim C4, amended: the very first selected item of the whole plan never
changes the transition count, and the first item placed into a section is
never rejected by the cap - the step always accepts it (isSome), though it
may itself be counted. -/
theorem c4_amended (has_spring has_eq section_has : Bool) (t mt : Nat) :
    stepTransitions true has_spring has_eq section_has t mt = some t ∧
    (stepTransitions false has_spring has_eq false t mt).isSome = true := by
  constructor
  · simp [stepTransitions]
  · unfold stepTransitions
    cases has_spring <;> cases has_eq <;> simp <;> split <;> simp

/-! ## The transition counter never exceeds the cap (towards C10) -/

theorem stepTransitions_le {f sp eqt sh : Bool} {t mt t1 : Nat}
    (h : stepTransitions f sp eqt sh t mt = some t1) (hle : t ≤ mt) : t1 ≤ mt := by
  unfold stepTransitions at h
  by_cases c1 : (!f && sp && !eqt) = true
  · rw [if_pos c1] at h
    by_cases c2 : (decide (mt ≤ t) && sh) = true
    · rw [if_pos c2] at h
      exact Option.noConfusion h
    · rw [if_neg c2] at h
      by_cases c3 : decide (t < mt) = true
      · rw [if_pos c3] at h
        cases h
        simp only [decide_eq_true_eq] at c3
        omega
      · rw [if_neg c3] at h
        cases h
        exact hle
  · rw [if_neg c1] at h
    cases h
    exact hle

theorem selectLoop_transitions_le (e : String) (mt ds : Nat) :
    ∀ (avail : List Exercise) (rem : Int) (sh : Bool) (acc : List PlanExercise)
      (st : SelState), st.transitions ≤ mt →
      (selectLoop e mt ds avail rem sh acc st).2.2.transitions ≤ mt := by
  intro avail
  induction avail with
  | nil =>
    intro rem sh acc st h
    simpa [selectLoop] using h
  | cons ex rest ih =>
    intro rem sh acc st h
    rw [selectLoop]
    split
    · exact h
    · split
      · cases hst : stepTransitions st.is_first_exercise
            ((if e != "mat" then ex.spring_setting else "") != "" &&
              match st.last_spring with
              | none => true
              | some ls => (if e != "mat" then ex.spring_setting else "") != ls)
            (st.current_equipment != some e) sh st.transitions mt with
        | none =>
          simp only [hst]
          exact ih _ _ _ _ h
        | some t1 =>
          simp only [hst]
          apply ih
          have ht1 : t1 ≤ mt := stepTransitions_le hst h
          split_ifs <;> simp [ht1]
      · exact ih _ _ _ _ h

theorem runSection_transitions_le (d tt m : Nat) (lvl : String) (mt idx : Nat)
    (s : Sect) (e : String) (st : SelState) (r : RandS)
    (h : st.transitions ≤ mt) :
    ((runSection d tt m lvl mt idx s e st r).2.1).transitions ≤ mt := by
  unfold runSection
  exact selectLoop_transitions_le e mt _ _ _ _ _ _ h

theorem runSections_transitions_le (d tt m : Nat) (lvl : String) (mt : Nat) :
    ∀ (pairs : List (Sect × String)) (idx : Nat) (st : SelState) (r : RandS),
      st.transitions ≤ mt →
      ((runSections d tt m lvl mt pairs idx st r).2.1).transitions ≤ mt := by
  intro pairs
  induction pairs with
  | nil =>
    intro idx st r h
    simpa [runSections] using h
  | cons pr rest ih =>
    intro idx st r h
    obtain ⟨s, e⟩ := pr
    rw [runSections]
    exact ih _ _ _ (runSection_transitions_le d tt m lvl mt idx s e st r h)

theorem attempt_transitions_le (d : Nat) (lvl : String) (cfg : LevelConfig)
    (allowed : List String) (mt : Nat) (r : RandS) :
    optAll (fun pr => decide (pr.1.transitions ≤ pr.1.max_transitions))
      (_generate_class_attempt d lvl cfg allowed mt r) = true := by
  cases hA : _allocate_equipment_blocks (orderedSectionsFor allowed lvl) allowed lvl mt r with
  | none => simp [_generate_class_attempt, hA, optAll]
  | some pr =>
    obtain ⟨allocs, r1⟩ := pr
    simp only [_generate_class_attempt, hA, optAll, buildPlan, decide_eq_true_eq]
    apply runSections_transitions_le
    exact Nat.zero_le mt

theorem generateLoop_transitions_le (d : Nat) (lvl : String) (cfg : LevelConfig)
    (allowed : List String) (mt me : Nat) :
    ∀ (k : Nat) (best : Option (ClassPlan × Nat)) (r : RandS),
      (∀ bp bn, best = some (bp, bn) → bp.transitions ≤ bp.max_transitions) →
      optAll (fun p => decide (p.transitions ≤ p.max_transitions))
        (generateLoop d lvl cfg allowed mt me k best r) = true := by
  intro k
  induction k with
  | zero =>
    intro best r hbest
    cases best with
    | none => rfl
    | some pr =>
      obtain ⟨bp, bn⟩ := pr
      have := hbest bp bn rfl
      simp only [generateLoop, optAll, decide_eq_true_eq]
      exact this
  | succ k ih =>
    intro best r hbest
    simp only [generateLoop]
    cases hA : _generate_class_attempt d lvl cfg allowed mt r with
    | none => rfl
    | some pr =>
      obtain ⟨plan, r1⟩ := pr
      have hattempt := attempt_transitions_le d lvl cfg allowed mt r
      rw [hA] at hattempt
      simp only [optAll, decide_eq_true_eq] at hattempt
      dsimp only
      by_cases hv : (_validate_class plan me).1 = true
      · simp only [hv, if_true, optAll, decide_eq_true_eq]
        exact hattempt
      · rw [if_neg hv]
        apply ih
        intro bp bn hb
        unfold updateBest at hb
        cases best with
        | none =>
          cases hb
          exact hattempt
        | some pr2 =>
          obtain ⟨bp2, bn2⟩ := pr2
          dsimp only at hb
          by_cases hlt : (_validate_class plan me).2.length < bn2
          · rw [if_pos hlt] at hb
            cases hb
            exact hattempt
          · rw [if_neg hlt] at hb
            cases hb
            exact hbest _ _ rfl

/-- Claim C10: in every plan produced by a generation attempt the reported
transition count is at most the cap (the increment is guarded), the
validator's transition-cap branch is therefore unreachable for such plans,
and the bound carries over to every plan returned by generate_class,
fallback plans included (pruning preserves both fields). -/
theorem c10_transitions_bounded (d : Nat) (lvl : String) (cfg : LevelConfig)
    (allowed : List String) (mt me : Nat) (eqOpt : Option (List String))
    (mtOpt : Option Nat) (retries : Nat) (r : RandS) :
    optAll (fun pr => decide (pr.1.transitions ≤ pr.1.max_transitions) &&
        (_validate_class pr.1 me).2.all (fun v => !isTransitionViolation v))
      (_generate_class_attempt d lvl cfg allowed mt r) = true
    ∧ optAll (fun p => decide (p.transitions ≤ p.max_transitions))
      (generate_class d lvl eqOpt mtOpt retries r) = true := by
  constructor
  · cases hA : _generate_class_attempt d lvl cfg allowed mt r with
    | none => rfl
    | some pr =>
      have hattempt := attempt_transitions_le d lvl cfg allowed mt r
      rw [hA] at hattempt
      simp only [optAll, decide_eq_true_eq] at hattempt
      simp only [optAll, Bool.and_eq_true, decide_eq_true_eq]
      exact ⟨hattempt, validate_no_transition_violation pr.1 me hattempt⟩
  · unfold generate_class
    apply generateLoop_transitions_le
    intro bp bn hb
    exact Option.noConfusion hb

/-! ## The block sequencer partitions the flexible sections (towards C8, C3) -/

theorem foldl_partition (c : Sect → Bool) (l : List Sect) : ∀ (po sc : List Sect),
    l.foldl (fun acc s => if c s then (acc.1, acc.2 ++ [s]) else (acc.1 ++ [s], acc.2))
        (po, sc)
      = (po ++ l.filter (fun s => !c s), sc ++ l.filter c) := by
  induction l with
  | nil => intro po sc; simp
  | cons s rest ih =>
    intro po sc
    rw [List.foldl_cons, List.filter_cons, List.filter_cons]
    by_cases h : c s = true
    · simp only [h, if_true, Bool.not_true, if_false]
      rw [ih]
      simp
    · have h' : c s = false := by simpa using h
      simp only [h', Bool.not_false, if_true, if_false]
      rw [ih]
      simp

theorem optimize_body_eq (allowed : List String) (level : String) :
    (fun (acc : List Sect × List Sect) s =>
      if (exercises_by_section s.id).isEmpty then (acc.1 ++ [s], acc.2)
      else
        match secondaryOf allowed with
        | some sec =>
          if decide (0 < countGet (sectionEqCounts allowed level s.id) sec) then
            (acc.1, acc.2 ++ [s])
          else (acc.1 ++ [s], acc.2)
        | none => (acc.1 ++ [s], acc.2))
    = (fun (acc : List Sect × List Sect) s =>
        if sectionSecondaryCapable allowed level s then (acc.1, acc.2 ++ [s])
        else (acc.1 ++ [s], acc.2)) := by
  funext acc s
  by_cases h1 : (exercises_by_section s.id).isEmpty
  · simp [sectionSecondaryCapable, h1]
  · cases hsec : secondaryOf allowed with
    | none => simp [sectionSecondaryCapable, h1, hsec]
    | some sec =>
      by_cases h2 : 0 < countGet (sectionEqCounts allowed level s.id) sec
      · simp [sectionSecondaryCapable, h1, hsec, h2]
      · simp [sectionSecondaryCapable, h1, hsec, h2]

theorem foldl_addMissing (l : List Sect) : ∀ (acc : List Sect), (∀ s ∈ l, s ∈ acc) →
    l.foldl (fun o s => if o.contains s then o else o ++ [s]) acc = acc := by
  induction l with
  | nil => intro acc _; rfl
  | cons s rest ih =>
    intro acc h
    rw [List.foldl_cons]
    have hs : acc.contains s = true := by
      have hmem := h s (by simp)
      simpa [List.contains] using List.elem_eq_true_of_mem hmem
    rw [if_pos hs]
    exact ih acc (fun x hx => h x (by simp [hx]))

theorem optimize_eq_partition (allowed : List String) (level : String) :
    _optimize_section_order allowed level =
      FLEXIBLE_SECTIONS.filter (fun s => !sectionSecondaryCapable allowed level s) ++
      FLEXIBLE_SECTIONS.filter (sectionSecondaryCapable allowed level) := by
  unfold _optimize_section_order
  rw [optimize_body_eq, foldl_partition]
  dsimp only
  rw [List.nil_append, List.nil_append]
  apply foldl_addMissing
  intro s hs
  by_cases h : sectionSecondaryCapable allowed level s = true
  · exact List.mem_append_right _ (List.mem_filter.mpr ⟨hs, h⟩)
  · have h' : sectionSecondaryCapable allowed level s = false := by simpa using h
    exact List.mem_append_left _ (List.mem_filter.mpr ⟨hs, by simp [h']⟩)

theorem flexible_sections_have_exercises :
    ∀ s ∈ FLEXIBLE_SECTIONS, (exercises_by_section s.id).isEmpty = false := by
  intro s hs
  fin_cases hs <;> decide

/-- Claim C8: the block sequencer returns exactly the flexible sections
with zero usable secondary items (in catalog declaration order) followed by
those with at least one usable secondary item (in declaration order); and
on the flexible sections the classification is exactly the usable-item test
(there is no secondary equipment when the preference list has fewer than
two entries, in which case every section is in the first group). -/
theorem c8_section_order_partition (allowed_equipment : List String) (level : String) :
    _optimize_section_order allowed_equipment level =
      FLEXIBLE_SECTIONS.filter
        (fun s => !sectionSecondaryCapable allowed_equipment level s) ++
      FLEXIBLE_SECTIONS.filter (sectionSecondaryCapable allowed_equipment level)
    ∧ FLEXIBLE_SECTIONS.all
        (fun s => sectionSecondaryCapable allowed_equipment level s ==
          (match secondaryOf allowed_equipment with
           | some sec =>
             decide (1 ≤ countGet (sectionEqCounts allowed_equipment level s.id) sec)
           | none => false)) = true := by
  constructor
  · exact optimize_eq_partition allowed_equipment level
  · rw [List.all_eq_true]
    intro s hs
    have hne := flexible_sections_have_exercises s hs
    rw [beq_iff_eq]
    cases hsec : secondaryOf allowed_equipment with
    | none => simp [sectionSecondaryCapable, hsec]
    | some sec => simp [sectionSecondaryCapable, hsec, hne, Nat.lt_iff_add_one_le]

/-! ## Section-id shape of attempt plans (towards C3) -/

theorem foldl_length_invariant {β : Type} (f : List String → β → List String)
    (hf : ∀ a b, (f a b).length = a.length) :
    ∀ (l : List β) (a : List String), (l.foldl f a).length = a.length := by
  intro l
  induction l with
  | nil => intro a; rfl
  | cons b rest ih =>
    intro a
    rw [List.foldl_cons, ih, hf]

theorem enforceGo_length (allowed : List String) (level : String) :
    ∀ (pairs : List (Sect × String)) (ab : List String) (cur : Option String),
      (enforceGo allowed level pairs ab cur).length = pairs.length := by
  intro pairs
  induction pairs with
  | nil => intro ab cur; rfl
  | cons pr rest ih =>
    intro ab cur
    obtain ⟨s, eq⟩ := pr
    simp only [enforceGo]
    split
    · split
      · simp [ih]
      · split
        · simp [ih]
        · simp [ih]
    · simp [ih]

theorem enforce_linear_flow_length (allocations : List String)
    (ordered_sections : List Sect) (allowed : List String) (level : String)
    (h : allocations.length = ordered_sections.length) :
    (_enforce_linear_flow allocations ordered_sections allowed level).length =
      ordered_sections.length := by
  unfold _enforce_linear_flow
  split
  · exact h
  · rw [enforceGo_length, List.length_zip, h, Nat.min_self]

theorem postRunAssign_length (allocations : List String) (ordered_sections : List Sect)
    (allowed : List String) (level : String) (sec primary : String) (last_secondary : Nat) :
    (postRunAssign allocations ordered_sections allowed level sec primary
      last_secondary).length = allocations.length := by
  unfold postRunAssign
  apply foldl_length_invariant
  intro a i
  dsimp only
  split_ifs <;> simp

theorem allocator_length (ordered_sections : List Sect) (allowed : List String)
    (level : String) (mt : Nat) (r : RandS) (allocs : List String) (r1 : RandS)
    (h : _allocate_equipment_blocks ordered_sections allowed level mt r =
      some (allocs, r1)) :
    allocs.length = ordered_sections.length := by
  have hdef : (List.map (defaultAllocation allowed level) ordered_sections).length =
      ordered_sections.length := List.length_map _ _
  unfold _allocate_equipment_blocks at h
  cases hsec : secondaryOf allowed with
  | none =>
    rw [hsec] at h
    dsimp only at h
    cases h
    exact enforce_linear_flow_length _ _ _ _ hdef
  | some sec =>
    rw [hsec] at h
    dsimp only at h
    split at h
    · split at h
      · cases h
        exact enforce_linear_flow_length _ _ _ _ hdef
      · split at h
        · exact Option.noConfusion h
        · split at h
          · cases h
            exact enforce_linear_flow_length _ _ _ _ hdef
          · cases h
            apply enforce_linear_flow_length
            rw [postRunAssign_length]
            rw [foldl_length_invariant _ (fun a b => by simp)]
            exact hdef
    · cases h
      exact enforce_linear_flow_length _ _ _ _ hdef

theorem runSections_map_id (d tt m : Nat) (lvl : String) (mt : Nat) :
    ∀ (pairs : List (Sect × String)) (idx : Nat) (st : SelState) (r : RandS),
      ((runSections d tt m lvl mt pairs idx st r).1).map PlanSection.id =
        pairs.map (fun pr => pr.1.id) := by
  intro pairs
  induction pairs with
  | nil => intro idx st r; rfl
  | cons pr rest ih =>
    intro idx st r
    obtain ⟨s, e⟩ := pr
    simp only [runSections, runSection, List.map_cons]
    rw [ih]

theorem flex_ids : ∀ s ∈ FLEXIBLE_SECTIONS, s.id ≠ "footwork" ∧ s.id ≠ "stretch" := by
  decide

theorem optimize_mem_flex (allowed : List String) (level : String) :
    ∀ s ∈ _optimize_section_order allowed level, s ∈ FLEXIBLE_SECTIONS := by
  intro s hs
  rw [optimize_eq_partition] at hs
  rcases List.mem_append.mp hs with h | h
  · exact (List.mem_filter.mp h).1
  · exact (List.mem_filter.mp h).1

theorem attempt_shape (d : Nat) (lvl : String) (cfg : LevelConfig)
    (allowed : List String) (mt : Nat) (r : RandS) (p : ClassPlan) (r1 : RandS)
    (h : _generate_class_attempt d lvl cfg allowed mt r = some (p, r1)) :
    planIdsShape p := by
  unfold _generate_class_attempt at h
  dsimp only at h
  cases hA : _allocate_equipment_blocks (orderedSectionsFor allowed lvl) allowed lvl
      mt r with
  | none => rw [hA] at h; exact Option.noConfusion h
  | some prA =>
    obtain ⟨allocs, rA⟩ := prA
    rw [hA] at h
    dsimp only at h
    cases h
    have hlen := allocator_length _ _ _ _ _ _ _ hA
    refine ⟨(_optimize_section_order allowed lvl).map Sect.id, ?_, ?_⟩
    · show ((runSections d _ _ lvl mt ((orderedSectionsFor allowed lvl).zip allocs) 0 _ rA).1).map PlanSection.id = _
      rw [runSections_map_id]
      have : ((orderedSectionsFor allowed lvl).zip allocs).map
          (fun pr : Sect × String => pr.1.id) =
          (orderedSectionsFor allowed lvl).map Sect.id := by
        have hfst : ((orderedSectionsFor allowed lvl).zip allocs).map Prod.fst =
            orderedSectionsFor allowed lvl :=
          List.map_fst_zip _ _ (le_of_eq hlen.symm)
        calc ((orderedSectionsFor allowed lvl).zip allocs).map
              (fun pr : Sect × String => pr.1.id)
            = (((orderedSectionsFor allowed lvl).zip allocs).map Prod.fst).map Sect.id := by
              rw [List.map_map]
              rfl
          _ = (orderedSectionsFor allowed lvl).map Sect.id := by rw [hfst]
      rw [this]
      show (FIXED_FIRST :: (_optimize_section_order allowed lvl ++ [FIXED_LAST])).map Sect.id = _
      simp [FIXED_FIRST, FIXED_LAST]
    · intro x hx
      obtain ⟨s, hs, hxs⟩ := List.mem_map.mp hx
      have hmem := optimize_mem_flex allowed lvl s hs
      have := flex_ids s hmem
      rw [← hxs]
      exact this

theorem mem_drop_one_filter {α : Type} (q : α → Bool) (a : α) (t : List α) (x : α)
    (hx : x ∈ ((a :: t).filter q).drop 1) : x ∈ t := by
  rw [List.filter_cons] at hx
  by_cases h : q a = true
  · rw [if_pos h, List.drop_one, List.tail_cons] at hx
    exact (List.mem_filter.mp hx).1
  · rw [if_neg h] at hx
    exact (List.mem_filter.mp (List.mem_of_mem_drop hx)).1

theorem shape_head_last {p : ClassPlan} (h : planIdsShape p) :
    (((p.sections.map PlanSection.id).head? == some "footwork") &&
      ((p.sections.map PlanSection.id).getLast? == some "stretch")) = true := by
  obtain ⟨mids, hids, _⟩ := h
  rw [hids]
  simp only [List.head?_cons, Bool.and_eq_true, beq_iff_eq]
  refine ⟨trivial, ?_⟩
  show ("footwork" :: (mids ++ ["stretch"])).getLast? = some "stretch"
  rw [show ("footwork" :: (mids ++ ["stretch"])) = ("footwork" :: mids) ++ ["stretch"] by simp]
  exact List.getLast?_concat _

theorem shape_tail_bounds {p : ClassPlan} (h : planIdsShape p) :
    (((p.sections.map PlanSection.id).drop 1).all (fun i => i != "footwork") &&
      (((p.sections.map PlanSection.id).reverse.drop 1).all
        (fun i => i != "stretch"))) = true := by
  obtain ⟨mids, hids, hmid⟩ := h
  rw [hids]
  simp only [Bool.and_eq_true, List.all_eq_true]
  constructor
  · intro x hx
    rw [List.drop_one, List.tail_cons] at hx
    rcases List.mem_append.mp hx with hm | hm
    · simpa using (hmid x hm).1
    · rw [List.mem_singleton] at hm
      subst hm
      decide
  · intro x hx
    have hrev : ("footwork" :: (mids ++ ["stretch"])).reverse =
        "stretch" :: (mids.reverse ++ ["footwork"]) := by simp
    rw [hrev, List.drop_one, List.tail_cons] at hx
    rcases List.mem_append.mp hx with hm | hm
    · simpa using (hmid x (List.mem_reverse.mp hm)).2
    · rw [List.mem_singleton] at hm
      subst hm
      decide

theorem shape_pruned_bounds {p : ClassPlan} (h : planIdsShape p) :
    ((((pruneEmptySections p).sections.map PlanSection.id).drop 1).all
        (fun i => i != "footwork") &&
      ((((pruneEmptySections p).sections.map PlanSection.id).reverse.drop 1).all
        (fun i => i != "stretch"))) = true := by
  obtain ⟨mids, hids, hmid⟩ := h
  have hprids : (pruneEmptySections p).sections.map PlanSection.id
      = (p.sections.filter (fun s => !s.exercises.isEmpty)).map PlanSection.id :=
    renumberFrom_map_id 0 _
  rw [hprids]
  cases hsec : p.sections with
  | nil =>
    rw [hsec] at hids
    exact absurd hids (by simp)
  | cons s0 t =>
    rw [hsec] at hids
    simp only [List.map_cons, List.cons.injEq] at hids
    obtain ⟨hs0, ht⟩ := hids
    simp only [Bool.and_eq_true, List.all_eq_true]
    constructor
    · intro x hx
      rw [← List.map_drop] at hx
      obtain ⟨y, hy, hyx⟩ := List.mem_map.mp hx
      have hyt := mem_drop_one_filter _ s0 t y hy
      have : y.id ∈ t.map PlanSection.id := List.mem_map_of_mem _ hyt
      rw [ht] at this
      rcases List.mem_append.mp this with hm | hm
      · rw [← hyx]
        simpa using (hmid y.id hm).1
      · rw [List.mem_singleton] at hm
        rw [← hyx, hm]
        decide
    · intro x hx
      rw [← List.map_reverse, ← List.filter_reverse] at hx
      cases hrv : (s0 :: t).reverse with
      | nil => exact absurd hrv (by simp)
      | cons a0 t2 =>
        rw [hrv] at hx
        rw [← List.map_drop] at hx
        obtain ⟨y, hy, hyx⟩ := List.mem_map.mp hx
        have hyt := mem_drop_one_filter _ a0 t2 y hy
        have hmap : y.id ∈ t2.map PlanSection.id := List.mem_map_of_mem _ hyt
        have hrevmap : (s0 :: t).reverse.map PlanSection.id =
            "stretch" :: (mids.reverse ++ ["footwork"]) := by
          rw [List.map_reverse]
          simp only [List.map_cons, hs0, ht]
          simp
        rw [hrv, List.map_cons] at hrevmap
        have ht2 : t2.map PlanSection.id = mids.reverse ++ ["footwork"] :=
          (List.cons.injEq _ _ _ _ ▸ hrevmap).2
        rw [ht2] at hmap
        rcases List.mem_append.mp hmap with hm | hm
        · rw [← hyx]
          simpa using (hmid y.id (List.mem_reverse.mp hm)).2
        · rw [List.mem_singleton] at hm
          rw [← hyx, hm]
          decide

theorem generateLoop_shape (d : Nat) (lvl : String) (cfg : LevelConfig)
    (allowed : List String) (mt me : Nat) :
    ∀ (k : Nat) (best : Option (ClassPlan × Nat)) (r : RandS),
      (∀ bp bn, best = some (bp, bn) → planIdsShape bp) →
      optAll (fun p =>
          ((p.sections.map PlanSection.id).drop 1).all (fun i => i != "footwork") &&
          ((p.sections.map PlanSection.id).reverse.drop 1).all (fun i => i != "stretch"))
        (generateLoop d lvl cfg allowed mt me k best r) = true := by
  intro k
  induction k with
  | zero =>
    intro best r hbest
    cases best with
    | none => rfl
    | some pr =>
      obtain ⟨bp, bn⟩ := pr
      have := hbest bp bn rfl
      simpa [generateLoop, optAll] using shape_pruned_bounds this
  | succ k ih =>
    intro best r hbest
    simp only [generateLoop]
    cases hA : _generate_class_attempt d lvl cfg allowed mt r with
    | none => rfl
    | some pr =>
      obtain ⟨plan, r1⟩ := pr
      have hshape := attempt_shape d lvl cfg allowed mt r plan r1 hA
      dsimp only
      by_cases hv : (_validate_class plan me).1 = true
      · simp only [hv, if_true, optAll]
        exact shape_tail_bounds hshape
      · rw [if_neg hv]
        apply ih
        intro bp bn hb
        unfold updateBest at hb
        cases best with
        | none =>
          cases hb
          exact hshape
        | some pr2 =>
          obtain ⟨bp2, bn2⟩ := pr2
          dsimp only at hb
          by_cases hlt : (_validate_class plan me).2.length < bn2
          · rw [if_pos hlt] at hb
            cases hb
            exact hshape
          · rw [if_neg hlt] at hb
            cases hb
            exact hbest _ _ rfl

/-- Claim C3, amended: every plan produced by a generation attempt has the
fixed opening block (footwork) first and the fixed closing block (stretch)
last; in every plan returned by generate_class no section after the first
is footwork and no section before the last is stretch - so the claim's
full statement survives pruning exactly when the footwork and stretch
blocks are non-empty, which the counterexample shows can fail. -/
theorem c3_amended (d : Nat) (lvl : String) (cfg : LevelConfig)
    (allowed : List String) (mt : Nat) (eqOpt : Option (List String))
    (mtOpt : Option Nat) (retries : Nat) (r : RandS) :
    optAll (fun pr =>
        ((pr.1.sections.map PlanSection.id).head? == some "footwork") &&
        ((pr.1.sections.map PlanSection.id).getLast? == some "stretch"))
      (_generate_class_attempt d lvl cfg allowed mt r) = true
    ∧ optAll (fun p =>
        ((p.sections.map PlanSection.id).drop 1).all (fun i => i != "footwork") &&
        ((p.sections.map PlanSection.id).reverse.drop 1).all (fun i => i != "stretch"))
      (generate_class d lvl eqOpt mtOpt retries r) = true := by
  constructor
  · cases hA : _generate_class_attempt d lvl cfg allowed mt r with
    | none => rfl
    | some pr =>
      obtain ⟨plan, r1⟩ := pr
      simpa [optAll] using shape_head_last (attempt_shape d lvl cfg allowed mt r plan r1 hA)
  · unfold generate_class
    apply generateLoop_shape
    intro bp bn hb
    exact Option.noConfusion hb

/-- Claim C3, counterexample: with equipment ["mat"] the footwork block has
no usable exercises (no footwork exercise supports the mat), every attempt
produces an empty footwork section, and the fallback pruning removes it:
the returned plan's first section id is "bridges", not "footwork". -/
theorem c3_counterexample :
    (generate_class 56 "intermediate" (some ["mat"]) none 1 []).map
      (fun p => (p.sections.map PlanSection.id).head?) = some (some "bridges") := by
  decide

/-! ## Claims C5 (equipment cap) and C2 (allocator crash) -/

/-- Claim C5, counterexample: a fallback plan can use four distinct
equipment types.  With equipment [trx, barrel, reformer, mat] at
intermediate level and a pattern roll of 0 (variety branch skipped), the
single attempt allocates reformer to footwork (last-resort best-stocked),
trx to bridges, barrel to prone/extension and mat elsewhere; the plan fails
validation (equipment cap) and is returned as the pruned fallback with
four distinct equipment values. -/
theorem c5_counterexample :
    (generate_class 56 "intermediate" (some ["trx", "barrel", "reformer", "mat"]) none 1
        [0]).map (fun p => (usedEquipment p).length) = some 4 := by
  decide

/-- Claim C5, amended: every returned plan that passes the validator - in
particular every first-valid plan - uses at most 3 distinct equipment
values; fallback plans may exceed the cap (see the counterexample), since
pruning only removes empty sections. -/
theorem c5_amended (d : Nat) (lvl : String) (eqOpt : Option (List String))
    (mtOpt : Option Nat) (retries : Nat) (r : RandS) :
    optAll (fun p => !(_validate_class p 3).1 || decide ((usedEquipment p).length ≤ 3))
      (generate_class d lvl eqOpt mtOpt retries r) = true := by
  cases hG : generate_class d lvl eqOpt mtOpt retries r with
  | none => rfl
  | some p =>
    simp only [optAll, Bool.or_eq_true, Bool.not_eq_true', decide_eq_true_eq]
    by_cases hv : (_validate_class p 3).1 = true
    · exact Or.inr (validate_valid_equipment p 3 hv)
    · exact Or.inl (by simpa using hv)

/-- Claim C2: the generator does raise.  With equipment [reformer, trx] at
intermediate level only two sections (bridges, upper body) are
secondary-eligible; a pattern roll of 0.6 enters the variety branch and its
high-variety arm, where random.randint(4, min(6, 2)) raises ValueError
(modeled none), which propagates out of generate_class. -/
theorem c2_allocator_raises :
    generate_class 56 "intermediate" (some ["reformer", "trx"]) none 50 [600] = none := by
  decide

/-! ## The variety run (towards C6) -/

theorem randintR_bounds (lo hi n : Nat) (r r1 : RandS)
    (h : randintR lo hi r = some (n, r1)) : lo ≤ n ∧ n ≤ hi := by
  unfold randintR at h
  split at h
  · exact Option.noConfusion h
  · rename_i hge
    push_neg at hge
    dsimp only at h
    cases h
    have hmod : (nextR r).1 % (hi - lo + 1) < hi - lo + 1 := Nat.mod_lt _ (by omega)
    omega

theorem consecutiveFromAux_range (start : Nat) :
    ∀ (l : List Nat) (last : Nat),
      ∃ m, consecutiveFromAux start l last = List.range' (last + 1) m := by
  intro l
  induction l with
  | nil => intro last; exact ⟨0, rfl⟩
  | cons n rest ih =>
    intro last
    rw [consecutiveFromAux]
    by_cases h1 : (decide (start < n) && n == last + 1) = true
    · rw [if_pos h1]
      have hn : n = last + 1 := by
        have h12 : decide (start < n) = true ∧ (n == last + 1) = true := by
          simpa using h1
        exact beq_iff_eq.mp h12.2
      obtain ⟨m, hm⟩ := ih n
      refine ⟨m + 1, ?_⟩
      rw [hm, hn, List.range'_succ]
    · rw [if_neg h1]
      by_cases h2 : decide (last + 1 < n) = true
      · rw [if_pos h2]
        exact ⟨0, rfl⟩
      · rw [if_neg h2]
        exact ih last

theorem consecutiveFromAux_mem (start : Nat) :
    ∀ (l : List Nat) (last i : Nat), i ∈ consecutiveFromAux start l last → i ∈ l := by
  intro l
  induction l with
  | nil =>
    intro last i h
    simp [consecutiveFromAux] at h
  | cons n rest ih =>
    intro last i h
    rw [consecutiveFromAux] at h
    split at h
    · rcases List.mem_cons.mp h with rfl | h2
      · simp
      · exact List.mem_cons_of_mem _ (ih n i h2)
    · split at h
      · cases h
      · exact List.mem_cons_of_mem _ (ih last i h)

theorem consecutiveFrom_range (eligible : List Nat) (start : Nat) :
    ∃ m, consecutiveFrom eligible start = List.range' start (m + 1) := by
  obtain ⟨m, hm⟩ := consecutiveFromAux_range start eligible start
  exact ⟨m, by rw [consecutiveFrom, hm, List.range'_succ]⟩

theorem consecutiveFrom_mem (eligible : List Nat) (start i : Nat)
    (h : i ∈ consecutiveFrom eligible start) : i = start ∨ i ∈ eligible := by
  rw [consecutiveFrom] at h
  rcases List.mem_cons.mp h with rfl | h2
  · exact Or.inl rfl
  · exact Or.inr (consecutiveFromAux_mem start eligible start i h2)

theorem take_range' : ∀ (n k s : Nat), (List.range' s n).take k = List.range' s (min k n) := by
  intro n
  induction n with
  | zero => intro k s; simp
  | succ n ih =>
    intro k s
    rw [List.range'_succ]
    cases k with
    | zero => simp
    | succ k =>
      rw [List.take_succ_cons, ih]
      have hmin : min (k + 1) (n + 1) = min k n + 1 := by omega
      rw [hmin, List.range'_succ]

theorem mem_enum_get? {α : Type} :
    ∀ (l : List α) (i : Nat) (x : α), (i, x) ∈ l.enum → l.get? i = some x := by
  intro l i x h
  have := List.mem_enum_iff_getElem?.mp h
  rwa [List.get?_eq_getElem?]

theorem secondaryEligible_spec (ordered : List Sect) (allowed : List String)
    (level sec : String) (i : Nat)
    (h : i ∈ secondaryEligible ordered allowed level sec) :
    i ≠ 0 ∧ ∀ s, ordered.get? i = some s →
      s.id ≠ "stretch" ∧ 1 ≤ countGet (sectionEqCounts allowed level s.id) sec := by
  unfold secondaryEligible at h
  obtain ⟨pr, hpr, hfst⟩ := List.mem_map.mp h
  obtain ⟨henum, hpred⟩ := List.mem_filter.mp hpr
  obtain ⟨j, s⟩ := pr
  cases hfst
  simp only [Bool.and_eq_true, Bool.not_eq_true', Bool.or_eq_false_iff, beq_eq_false_iff_ne,
    bne_iff_ne, decide_eq_true_eq] at hpred
  have hget := mem_enum_get? ordered j s henum
  refine ⟨hpred.1.1, ?_⟩
  intro s2 hs2
  rw [hget] at hs2
  cases hs2
  exact ⟨hpred.1.2, hpred.2⟩

/-- Claim C6, counterexample: with equipment [reformer, chair] at
intermediate level the eligible indices are [3..8]; draws 0.6 (variety,
high arm), num_secondary = 4, 0.7 (uniform start choice) and index 5 pick
start 8, whose consecutive run is just [8]: the allocator reassigns a run
of length 1, not between 3 and 6. -/
theorem c6_counterexample :
    allocVarietyRun (orderedSectionsFor ["reformer", "chair"] "intermediate")
      ["reformer", "chair"] "intermediate" [600, 0, 700, 5] = some [8] := by
  decide

/-- Claim C6, amended: a successful randint draw lies within its bounds
(so the requested run size is between 3 and 6 at both call sites), and the
run the variety branch reassigns is a non-empty contiguous range of
consecutive indices, of length at most the requested size (it can be
shorter - down to 1 - when the consecutive stretch from the chosen start
is short), each index secondary-eligible, hence never index 0 and never
the stretch section. -/
theorem c6_amended (ordered : List Sect) (allowed : List String) (level sec : String)
    (start num lo hi n : Nat) (r r1 : RandS) :
    (randintR lo hi r = some (n, r1) → lo ≤ n ∧ n ≤ hi)
    ∧ (start ∈ eligibleStarts (secondaryEligible ordered allowed level sec)
          ordered.length →
       1 ≤ num →
       (1 ≤ ((consecutiveFrom (secondaryEligible ordered allowed level sec) start).take
            num).length ∧
        ((consecutiveFrom (secondaryEligible ordered allowed level sec) start).take
            num).length ≤ num ∧
        (consecutiveFrom (secondaryEligible ordered allowed level sec) start).take num =
          List.range' start
            (((consecutiveFrom (secondaryEligible ordered allowed level sec) start).take
              num).length) ∧
        ∀ i ∈ (consecutiveFrom (secondaryEligible ordered allowed level sec) start).take
            num,
          i ∈ secondaryEligible ordered allowed level sec ∧ i ≠ 0 ∧
          ∀ s, ordered.get? i = some s → s.id ≠ "stretch")) := by
  constructor
  · intro h
    exact randintR_bounds lo hi n r r1 h
  · intro hstart hnum
    have hstartel : start ∈ secondaryEligible ordered allowed level sec :=
      (List.mem_filter.mp hstart).1
    obtain ⟨m, hm⟩ := consecutiveFrom_range (secondaryEligible ordered allowed level sec)
      start
    have hmem : ∀ i ∈ (consecutiveFrom (secondaryEligible ordered allowed level sec)
        start).take num, i ∈ secondaryEligible ordered allowed level sec := by
      intro i hi
      rcases consecutiveFrom_mem _ _ _ (List.take_subset _ _ hi) with rfl | h2
      · exact hstartel
      · exact h2
    refine ⟨?_, ?_, ?_, ?_⟩
    · rw [hm, take_range', List.length_range']
      omega
    · exact List.length_take_le _ _
    · rw [hm, take_range', List.length_range']
    · intro i hi
      have hel := hmem i hi
      obtain ⟨hne, hspec⟩ := secondaryEligible_spec ordered allowed level sec i hel
      exact ⟨hel, hne, fun s hs => (hspec s hs).1⟩

/-- Claim C6, witness for the amended theorem at a concrete input:
equipment [reformer, chair] at intermediate level, start 3, requested run
size 4 drawn by randint(4, 6) from the stream [0]. -/
theorem c6_amended_witness :
    ((4:Nat) ≤ 4 ∧ (4:Nat) ≤ 6)
    ∧ (1 ≤ ((consecutiveFrom (secondaryEligible
          (orderedSectionsFor ["reformer", "chair"] "intermediate")
          ["reformer", "chair"] "intermediate" "chair") 3).take 4).length ∧
       ((consecutiveFrom (secondaryEligible
          (orderedSectionsFor ["reformer", "chair"] "intermediate")
          ["reformer", "chair"] "intermediate" "chair") 3).take 4).length ≤ 4 ∧
       (consecutiveFrom (secondaryEligible
          (orderedSectionsFor ["reformer", "chair"] "intermediate")
          ["reformer", "chair"] "intermediate" "chair") 3).take 4 =
         List.range' 3
           (((consecutiveFrom (secondaryEligible
              (orderedSectionsFor ["reformer", "chair"] "intermediate")
              ["reformer", "chair"] "intermediate" "chair") 3).take 4).length) ∧
       ∀ i ∈ (consecutiveFrom (secondaryEligible
          (orderedSectionsFor ["reformer", "chair"] "intermediate")
          ["reformer", "chair"] "intermediate" "chair") 3).take 4,
         i ∈ secondaryEligible (orderedSectionsFor ["reformer", "chair"] "intermediate")
           ["reformer", "chair"] "intermediate" "chair" ∧ i ≠ 0 ∧
         ∀ s, (orderedSectionsFor ["reformer", "chair"] "intermediate").get? i = some s →
           s.id ≠ "stretch") :=
  ⟨(c6_amended (orderedSectionsFor ["reformer", "chair"] "intermediate")
      ["reformer", "chair"] "intermediate" "chair" 3 4 4 6 4 [0] []).1 (by decide),
   (c6_amended (orderedSectionsFor ["reformer", "chair"] "intermediate")
      ["reformer", "chair"] "intermediate" "chair" 3 4 4 6 4 [0] []).2 (by decide)
     (by decide)⟩

/-! ## Defaulted equipment lists (towards C7) -/

theorem foldl_congr_id {α β : Type} (f : β → α → β) (hf : ∀ c x, f c x = c) :
    ∀ (l : List α) (init : β), l.foldl f init = init := by
  intro l
  induction l with
  | nil => intro init; rfl
  | cons x rest ih =>
    intro init
    rw [List.foldl_cons, hf]
    exact ih init

theorem sectionEqCounts_nil (level sid : String) : sectionEqCounts [] level sid = [] := by
  unfold sectionEqCounts
  apply foldl_congr_id
  intro counts ex
  split
  · apply foldl_congr_id
    intro c eq
    simp
  · rfl

theorem bumpCount_inv (allowed : List String) (eq : String) (heq : eq ∈ allowed) :
    ∀ (c : List (String × Nat)), (∀ p ∈ c, p.1 ∈ allowed ∧ 1 ≤ p.2) →
      ∀ p ∈ bumpCount c eq, p.1 ∈ allowed ∧ 1 ≤ p.2 := by
  intro c
  induction c with
  | nil =>
    intro _ p hp
    rw [bumpCount] at hp
    rw [List.mem_singleton] at hp
    subst hp
    exact ⟨heq, le_refl 1⟩
  | cons kv rest ih =>
    intro hinv p hp
    obtain ⟨k, v⟩ := kv
    rw [bumpCount] at hp
    split at hp
    · rcases List.mem_cons.mp hp with rfl | hmem
      · have := hinv (k, v) (by simp)
        exact ⟨this.1, by omega⟩
      · exact hinv _ (List.mem_cons_of_mem _ hmem)
    · rcases List.mem_cons.mp hp with rfl | hmem
      · exact hinv (k, v) (by simp)
      · exact ih (fun q hq => hinv q (List.mem_cons_of_mem _ hq)) p hmem

theorem innerFold_inv (allowed : List String) :
    ∀ (eqs : List String) (c : List (String × Nat)),
      (∀ p ∈ c, p.1 ∈ allowed ∧ 1 ≤ p.2) →
      ∀ p ∈ eqs.foldl
          (fun c eq => if allowed.contains eq then bumpCount c eq else c) c,
        p.1 ∈ allowed ∧ 1 ≤ p.2 := by
  intro eqs
  induction eqs with
  | nil => intro c h p hp; exact h p hp
  | cons e rest ih =>
    intro c h p hp
    rw [List.foldl_cons] at hp
    by_cases hc : allowed.contains e = true
    · rw [if_pos hc] at hp
      have hmem : e ∈ allowed := by
        simpa [List.contains] using List.mem_of_elem_eq_true hc
      exact ih _ (bumpCount_inv allowed e hmem c h) p hp
    · rw [if_neg hc] at hp
      exact ih _ h p hp

theorem sectionEqCounts_inv (allowed : List String) (level sid : String) :
    ∀ p ∈ sectionEqCounts allowed level sid, p.1 ∈ allowed ∧ 1 ≤ p.2 := by
  unfold sectionEqCounts
  suffices hgen : ∀ (l : List Exercise) (c : List (String × Nat)),
      (∀ p ∈ c, p.1 ∈ allowed ∧ 1 ≤ p.2) →
      ∀ p ∈ l.foldl
          (fun counts ex =>
            if ex.sectionId == sid && _level_matches ex.level level then
              ex.equipment.foldl
                (fun c eq => if allowed.contains eq then bumpCount c eq else c) counts
            else counts) c,
        p.1 ∈ allowed ∧ 1 ≤ p.2 by
    exact hgen EXERCISES [] (by simp)
  intro l
  induction l with
  | nil => intro c h p hp; exact h p hp
  | cons ex rest ih =>
    intro c h p hp
    rw [List.foldl_cons] at hp
    split at hp
    · exact ih _ (innerFold_inv allowed ex.equipment c h) p hp
    · exact ih _ h p hp

theorem defaultAllocation_nil (level : String) (s : Sect) :
    defaultAllocation [] level s = "mat" := by
  simp [defaultAllocation, sectionEqCounts_nil, countGet, secondaryOf, allocationFallback,
    primaryOf]

theorem defaultAllocation_mat (level : String) (s : Sect) :
    defaultAllocation ["mat"] level s = "mat" := by
  unfold defaultAllocation
  cases hc : sectionEqCounts ["mat"] level s.id with
  | nil => simp [primaryOf, secondaryOf, countGet, allocationFallback]
  | cons kv rest =>
    obtain ⟨k, v⟩ := kv
    have hk := sectionEqCounts_inv ["mat"] level s.id (k, v) (by rw [hc]; simp)
    have hkm : k = "mat" := by simpa using hk.1
    subst hkm
    have hcg : countGet (("mat", v) :: rest) "mat" = v := by simp [countGet, List.lookup]
    have hdec : decide (0 < countGet (("mat", v) :: rest) "mat") = true := by
      rw [hcg]
      have := hk.2
      simp
      omega
    simp only [primaryOf, secondaryOf, hdec]
    by_cases hid : (s.id == "stretch") = true <;> simp [hid]

theorem optimize_secondary_none (allowed : List String) (level : String)
    (hsec : secondaryOf allowed = none) :
    _optimize_section_order allowed level = FLEXIBLE_SECTIONS := by
  rw [optimize_eq_partition]
  have hcap : ∀ s, sectionSecondaryCapable allowed level s = false := by
    intro s
    simp [sectionSecondaryCapable, hsec]
  have h1 : FLEXIBLE_SECTIONS.filter
      (fun s => !sectionSecondaryCapable allowed level s) = FLEXIBLE_SECTIONS :=
    List.filter_eq_self.mpr (fun s _ => by simp [hcap])
  have h2 : FLEXIBLE_SECTIONS.filter (sectionSecondaryCapable allowed level) = [] :=
    List.filter_eq_nil_iff.mpr (fun s _ => by simp [hcap])
  rw [h1, h2, List.append_nil]

theorem enforceGo_all_mat (allowed : List String) (level : String) :
    ∀ (pairs : List (Sect × String)) (ab : List String) (cur : Option String),
      (∀ pr ∈ pairs, pr.2 = "mat") → ab.contains "mat" = false →
      (cur = none ∨ cur = some "mat") →
      enforceGo allowed level pairs ab cur = pairs.map Prod.snd := by
  intro pairs
  induction pairs with
  | nil => intro ab cur _ _ _; rfl
  | cons pr rest ih =>
    intro ab cur hall hab hcur
    obtain ⟨s, eq⟩ := pr
    have heq : eq = "mat" := hall (s, eq) (by simp)
    subst heq
    have htail : ∀ q ∈ rest, q.2 = "mat" := fun q hq => hall q (List.mem_cons_of_mem _ hq)
    rcases hcur with rfl | rfl
    · simp only [enforceGo, hab, Bool.false_eq_true, if_false, List.map_cons]
      exact congrArg (List.cons "mat") (ih ab (some "mat") htail hab (Or.inr rfl))
    · simp only [enforceGo, bne_self_eq_false, Bool.false_eq_true, if_false, hab,
        List.map_cons]
      exact congrArg (List.cons "mat") (ih ab (some "mat") htail hab (Or.inr rfl))

theorem allocator_no_secondary (ordered : List Sect) (allowed : List String)
    (level : String) (mt : Nat) (r : RandS)
    (hsec : secondaryOf allowed = none)
    (hdef : ∀ s, defaultAllocation allowed level s = "mat") :
    _allocate_equipment_blocks ordered allowed level mt r =
      some (ordered.map (fun _ => "mat"), (randFloatR r).2) := by
  unfold _allocate_equipment_blocks
  rw [hsec]
  dsimp only
  have hmap : ordered.map (defaultAllocation allowed level) =
      ordered.map (fun _ => "mat") :=
    List.map_congr_left (fun s _ => hdef s)
  rw [hmap]
  have henf : _enforce_linear_flow (ordered.map (fun _ => "mat")) ordered allowed level =
      ordered.map (fun _ => "mat") := by
    unfold _enforce_linear_flow
    split
    · rfl
    · rw [enforceGo_all_mat allowed level (ordered.zip (ordered.map (fun _ => "mat")))
          [] none ?_ rfl (Or.inl rfl)]
      · apply List.map_snd_zip
        simp
      · intro pr hpr
        have hm := (List.of_mem_zip hpr).2
        obtain ⟨x, _, hx⟩ := List.mem_map.mp hm
        exact hx.symm
  rw [henf]

theorem buildPlan_empty_strip (d : Nat) (lvl : String) (cfg : LevelConfig)
    (e : List String) (mt : Nat) (o : List Sect) (a : List String) (r : RandS) :
    buildPlan d lvl cfg [] mt o a r =
      (stripEquip (buildPlan d lvl cfg e mt o a r).1,
        (buildPlan d lvl cfg e mt o a r).2) := by
  unfold buildPlan
  rfl

theorem attempt_empty_eq_mat (d : Nat) (lvl : String) (cfg : LevelConfig) (mt : Nat)
    (r : RandS) :
    _generate_class_attempt d lvl cfg [] mt r =
      (_generate_class_attempt d lvl cfg ["mat"] mt r).map
        (fun pr => (stripEquip pr.1, pr.2)) := by
  have hord : orderedSectionsFor [] lvl = orderedSectionsFor ["mat"] lvl := by
    unfold orderedSectionsFor
    rw [optimize_secondary_none [] lvl rfl, optimize_secondary_none ["mat"] lvl rfl]
  have halloc1 := allocator_no_secondary (orderedSectionsFor [] lvl) [] lvl mt r rfl
    (defaultAllocation_nil lvl)
  have halloc2 := allocator_no_secondary (orderedSectionsFor ["mat"] lvl) ["mat"] lvl mt r
    rfl (defaultAllocation_mat lvl)
  unfold _generate_class_attempt
  dsimp only
  rw [halloc1, hord, halloc2]
  dsimp only [Option.map]
  exact congrArg some (buildPlan_empty_strip d lvl cfg ["mat"] mt _ _ _)

theorem validate_stripEquip (p : ClassPlan) (me : Nat) :
    _validate_class (stripEquip p) me = _validate_class p me := rfl

theorem prune_stripEquip (p : ClassPlan) :
    pruneEmptySections (stripEquip p) = stripEquip (pruneEmptySections p) := rfl

theorem generateLoop_empty_eq_mat (d : Nat) (lvl : String) (cfg : LevelConfig)
    (mt me : Nat) :
    ∀ (k : Nat) (best1 best2 : Option (ClassPlan × Nat)) (r : RandS),
      best1 = best2.map (fun pr => (stripEquip pr.1, pr.2)) →
      generateLoop d lvl cfg [] mt me k best1 r =
        (generateLoop d lvl cfg ["mat"] mt me k best2 r).map stripEquip := by
  intro k
  induction k with
  | zero =>
    intro best1 best2 r hrel
    subst hrel
    cases best2 with
    | none => rfl
    | some pr =>
      obtain ⟨bp, bn⟩ := pr
      simp only [generateLoop, Option.map]
      rw [prune_stripEquip]
  | succ k ih =>
    intro best1 best2 r hrel
    simp only [generateLoop]
    rw [attempt_empty_eq_mat]
    cases hA : _generate_class_attempt d lvl cfg ["mat"] mt r with
    | none => rfl
    | some pr =>
      obtain ⟨plan, r1⟩ := pr
      simp only [Option.map]
      rw [validate_stripEquip]
      by_cases hv : (_validate_class plan me).1 = true
      · simp [hv]
      · rw [if_neg hv, if_neg hv]
        apply ih
        subst hrel
        cases best2 with
        | none => rfl
        | some pr2 =>
          obtain ⟨bp2, bn2⟩ := pr2
          simp only [Option.map]
          dsimp only [updateBest]
          by_cases hlt : (_validate_class plan me).2.length < bn2
          · rw [if_pos hlt, if_pos hlt]
          · rw [if_neg hlt, if_neg hlt]

/-- Claim C7, amended: an absent (None) equipment list behaves exactly as
["reformer"] - the plans are identical; an empty list behaves as ["mat"]
(its primary default) in every respect except the plan's equipment field,
which echoes the original empty list (see the counterexample). -/
theorem c7_amended (d : Nat) (lvl : String) (mtOpt : Option Nat) (retries : Nat)
    (r : RandS) :
    generate_class d lvl none mtOpt retries r =
      generate_class d lvl (some ["reformer"]) mtOpt retries r
    ∧ generate_class d lvl (some []) mtOpt retries r =
      (generate_class d lvl (some ["mat"]) mtOpt retries r).map stripEquip := by
  constructor
  · rfl
  · unfold generate_class
    exact generateLoop_empty_eq_mat d lvl (_get_level_config lvl) _ 3 retries none none r
      rfl

/-- Claim C7, counterexample: for an empty equipment list the returned plan
is not equal to the plan for ["mat"] under identical draws (the equality
test below is false): the equipment field echoes the original list ([]
versus ["mat"]), while all other fields coincide. -/
theorem c7_counterexample :
    ((generate_class 56 "intermediate" (some []) none 1 [] ==
        generate_class 56 "intermediate" (some ["mat"]) none 1 []) = false) ∧
    (generate_class 56 "intermediate" (some []) none 1 []).map ClassPlan.equipment =
      some [] ∧
    (generate_class 56 "intermediate" (some ["mat"]) none 1 []).map ClassPlan.equipment =
      some ["mat"] := by
  refine ⟨?_, ?_, ?_⟩ <;> decide
